import Mathlib

/-!
Verification development for the blockpedia color/query core.

The Rust source is embedded shallowly:

* `f32` arithmetic is modelled by exact rational arithmetic (`ℚ`).  All the
  algorithmic control flow of the core (comparisons, branch guards, clamps)
  is rational; the only genuinely transcendental pieces — `sin`, `powf`
  inside easing curves and the sRGB gamma, and the external `palette` crate
  conversions to CIE Lab / Oklch — are abstracted into a `FloatOps` record
  that every definition and theorem is parametric over.
* Rust float→`u8` casts (`as u8`, truncating and saturating) are modelled by
  `f32AsU8`.
* `f32::INFINITY` initialisers of best-candidate scans are modelled by
  `Option ℚ` with `none` as infinity (every finite distance compares below).
* `Vec::sort_by` is a stable sort and is modelled by `List.mergeSort`;
  distances enter comparisons through the square-root function, which is
  strictly monotone on nonnegative reals, so sorting/comparing by the
  (computable) squared Oklab distance selects exactly the same elements as
  the source's `sqrt`ed distances; the bridge lemmas `sqrt_le_sqrt_iff_sq`
  and `sqrt_lt_sqrt_iff_sq` record this.
* Fallible/panicking code paths (`unwrap`, `remove`, indexing) are modelled
  in the `Option` monad, `none` meaning a panic.
* The static catalog `BLOCKS` is generated at build time (a `phf` map with
  stable iteration order); it is modelled by an explicit `List BlockFacts`
  parameter; `BLOCKS.get` is association lookup by id.
-/

/-- Rust `f32 as u8`: truncate toward zero and saturate to `[0,255]`. -/
def f32AsU8 (q : ℚ) : ℕ := (min 255 (max 0 ⌊q⌋)).toNat

/-- Rust `f32` truncation toward zero (used by the `%` remainder). -/
def ratTrunc (q : ℚ) : ℤ := if 0 ≤ q then ⌊q⌋ else -⌊-q⌋

/-- Rust `%` on floats: remainder with the sign of the dividend. -/
def ratRem (q m : ℚ) : ℚ := q - m * ratTrunc (q / m)

/-- `std::f32::consts::PI`, the exact value of the 32-bit float constant. -/
def pi32 : ℚ := 13176795 / 4194304

/-- The transcendental / external-library numeric primitives the core calls
into: `f32::sin`, `f32::powf`, and the `palette` crate conversions of an RGB
triple to CIE Lab and Oklch used only to fill the cached `lab`/`oklch`
fields.  All results are abstract; no theorem below depends on their
values. -/
structure FloatOps where
  sinF : ℚ → ℚ
  powF : ℚ → ℚ → ℚ
  labOf : ℕ → ℕ → ℕ → ℚ × ℚ × ℚ
  oklchOf : ℕ → ℕ → ℕ → ℚ × ℚ × ℚ

/-- A triple of floats (a `[f32; 3]` in the source). -/
structure V3 where
  x : ℚ
  y : ℚ
  z : ℚ
deriving DecidableEq, Repr

/-- A `[u8; 3]` RGB triple. -/
structure RgbU8 where
  r : ℕ
  g : ℕ
  b : ℕ
deriving DecidableEq, Repr

/-- `rgb_to_hsl` from `src/color/mod.rs`: simple RGB→HSL conversion. -/
def rgb_to_hsl (r g b : ℕ) : V3 :=
  let r : ℚ := (r : ℚ) / 255
  let g : ℚ := (g : ℚ) / 255
  let b : ℚ := (b : ℚ) / 255
  let mx := max r (max g b)
  let mn := min r (min g b)
  let delta := mx - mn
  let l := (mx + mn) / 2
  if delta = 0 then ⟨0, 0, l⟩
  else
    let s := if l < 1/2 then delta / (mx + mn) else delta / (2 - mx - mn)
    let h :=
      if mx = r then ((g - b) / delta + if g < b then 6 else 0) / 6
      else if mx = g then ((b - r) / delta + 2) / 6
      else ((r - g) / delta + 4) / 6
    ⟨h * 360, s, l⟩

/-- `rgb_to_oklab_simple` from `src/color/mod.rs`: the lightweight linear
approximation used for the cached `oklab` field. -/
def rgb_to_oklab_simple (r g b : ℕ) : V3 :=
  let r : ℚ := (r : ℚ) / 255
  let g : ℚ := (g : ℚ) / 255
  let b : ℚ := (b : ℚ) / 255
  ⟨2126/10000 * r + 7152/10000 * g + 722/10000 * b,
   (r - g) * (1/2),
   (r + g - 2 * b) * (1/4)⟩

/-- `ExtendedColorData` from `src/color/mod.rs`. -/
structure ExtendedColorData where
  rgb : RgbU8
  oklab : V3
  hsl : V3
  lab : ℚ × ℚ × ℚ
  oklch : ℚ × ℚ × ℚ
  hex : ℕ
deriving DecidableEq, Repr

namespace ExtendedColorData

/-- `ExtendedColorData::from_rgb`. -/
def from_rgb (F : FloatOps) (r g b : ℕ) : ExtendedColorData :=
  { rgb := ⟨r, g, b⟩
    oklab := rgb_to_oklab_simple r g b
    hsl := rgb_to_hsl r g b
    lab := F.labOf r g b
    oklch := F.oklchOf r g b
    hex := (r <<< 16) ||| (g <<< 8) ||| b }

/-- The squared Oklab distance (the radicand of `distance_oklab`). -/
def distSqOklab (c o : ExtendedColorData) : ℚ :=
  let dl := c.oklab.x - o.oklab.x
  let da := c.oklab.y - o.oklab.y
  let db := c.oklab.z - o.oklab.z
  dl * dl + da * da + db * db

/-- The squared RGB distance (the radicand of `distance_rgb`). -/
def distSqRgb (c o : ExtendedColorData) : ℚ :=
  let dr := (c.rgb.r : ℚ) - (o.rgb.r : ℚ)
  let dg := (c.rgb.g : ℚ) - (o.rgb.g : ℚ)
  let db := (c.rgb.b : ℚ) - (o.rgb.b : ℚ)
  dr * dr + dg * dg + db * db

/-- `ExtendedColorData::distance_oklab`: Euclidean distance on the cached
Oklab vector (`sqrt` of the squared distance). -/
noncomputable def distance_oklab (c o : ExtendedColorData) : ℝ :=
  Real.sqrt ((distSqOklab c o : ℚ) : ℝ)

/-- `ExtendedColorData::distance_rgb`: Euclidean distance on the RGB triple. -/
noncomputable def distance_rgb (c o : ExtendedColorData) : ℝ :=
  Real.sqrt ((distSqRgb c o : ℚ) : ℝ)

end ExtendedColorData

/-- Comparing square roots of nonnegative reals agrees with comparing the
radicands: this is why the algorithmic embeddings below may compare squared
distances where the source compares `sqrt`ed ones. -/
theorem sqrt_le_sqrt_iff_sq {a b : ℝ} (ha : 0 ≤ a) (hb : 0 ≤ b) :
    Real.sqrt a ≤ Real.sqrt b ↔ a ≤ b := by
  constructor
  · intro h
    have := Real.sqrt_le_sqrt (le_of_lt (lt_of_le_of_lt hb (lt_add_one b)))
    nlinarith [Real.sq_sqrt ha, Real.sq_sqrt hb, Real.sqrt_nonneg a, Real.sqrt_nonneg b]
  · exact fun h => Real.sqrt_le_sqrt h

/-- Strict version of `sqrt_le_sqrt_iff_sq`. -/
theorem sqrt_lt_sqrt_iff_sq {a b : ℝ} (ha : 0 ≤ a) (hb : 0 ≤ b) :
    Real.sqrt a < Real.sqrt b ↔ a < b := by
  rw [← not_le, ← not_le, sqrt_le_sqrt_iff_sq hb ha]

/-- Squared distances are nonnegative. -/
theorem distSqOklab_nonneg (c o : ExtendedColorData) :
    0 ≤ ExtendedColorData.distSqOklab c o := by
  unfold ExtendedColorData.distSqOklab
  dsimp only
  nlinarith [mul_self_nonneg (c.oklab.x - o.oklab.x), mul_self_nonneg (c.oklab.y - o.oklab.y),
    mul_self_nonneg (c.oklab.z - o.oklab.z)]

/-- Squared RGB distances are nonnegative. -/
theorem distSqRgb_nonneg (c o : ExtendedColorData) :
    0 ≤ ExtendedColorData.distSqRgb c o := by
  unfold ExtendedColorData.distSqRgb
  dsimp only
  nlinarith [mul_self_nonneg ((c.rgb.r : ℚ) - (o.rgb.r : ℚ)),
    mul_self_nonneg ((c.rgb.g : ℚ) - (o.rgb.g : ℚ)),
    mul_self_nonneg ((c.rgb.b : ℚ) - (o.rgb.b : ℚ))]

/-- `ColorData` from `src/lib.rs` (the color attached to a catalog entry). -/
structure ColorData where
  rgb : RgbU8
  oklab : V3
deriving DecidableEq, Repr

/-- `ColorData::to_extended`. -/
def ColorData.to_extended (F : FloatOps) (c : ColorData) : ExtendedColorData :=
  ExtendedColorData.from_rgb F c.rgb.r c.rgb.g c.rgb.b

/-- `BlockFacts` from `src/lib.rs`.  `color` is `extras.color`; the other
`Extras` fields are irrelevant to the core and omitted. -/
structure BlockFacts where
  id : String
  properties : List (String × List String)
  default_state : List (String × String)
  transparent : Bool
  color : Option ColorData
deriving DecidableEq, Repr

/-- `BlockFacts::has_property`. -/
def BlockFacts.has_property (b : BlockFacts) (property : String) : Bool :=
  b.properties.any (fun kv => kv.1 = property)

/-- `BlockFacts::get_property_values`. -/
def BlockFacts.get_property_values (b : BlockFacts) (property : String) :
    Option (List String) :=
  (b.properties.find? (fun kv => kv.1 = property)).map (·.2)

/-- `BlockFacts::get_property` (reads the default state). -/
def BlockFacts.get_property (b : BlockFacts) (property : String) : Option String :=
  (b.default_state.find? (fun kv => kv.1 = property)).map (·.2)

/-- The build-generated `BLOCKS` table is a read-only map with stable
iteration order; it is modelled by a list of records.  `BLOCKS.values()`
iterates the list in order. -/
abbrev Catalog := List BlockFacts

/-- `BLOCKS.get(id)`: lookup by identifier key. -/
def blocksGet (catalog : Catalog) (id : String) : Option BlockFacts :=
  catalog.find? (fun b => b.id = id)

/-- Lowercasing as used by the query filters (`str::to_lowercase`; block ids
are ASCII). -/
def lowerStr (s : String) : String := ⟨s.data.map Char.toLower⟩

/-- First index at which `part` occurs in `text` (Rust `str::find`). -/
def findSub : List Char → List Char → Option ℕ
  | t, p =>
    if p.isPrefixOf t then some 0
    else match t with
      | [] => none
      | _ :: rest => (findSub rest p).map (· + 1)

/-- Rust `str::contains` (substring containment). -/
def hasInfix (text sub : List Char) : Bool := (findSub text sub).isSome

/-- Substring containment on `String`s. -/
def containsStr (s sub : String) : Bool := hasInfix s.data sub.data

-- === The gradient configuration types from src/query_builder.rs ===

/-- `ColorSamplingMethod` (carried through configuration, unused by the math). -/
inductive ColorSamplingMethod where
  | Dominant
  | Average
  | Clustering (k : ℕ)
  | EdgeWeighted
  | MostFrequent (bins : ℕ)
deriving DecidableEq, Repr

/-- `ColorSpace` for gradient interpolation. -/
inductive ColorSpace where
  | Rgb
  | Hsl
  | Oklab
  | Lab
deriving DecidableEq, Repr

/-- `EasingFunction`. -/
inductive EasingFunction where
  | Linear
  | EaseIn
  | EaseOut
  | EaseInOut
  | CubicBezier (p1 p2 : ℚ × ℚ)
  | Sine
  | Exponential
deriving DecidableEq, Repr

/-- `GradientConfig`. -/
structure GradientConfig where
  steps : ℕ
  color_space : ColorSpace
  sampling_method : ColorSamplingMethod
  easing : EasingFunction
deriving DecidableEq, Repr

/-- The query working set (`BlockQuery` in `src/query_builder.rs`): an
ordered sequence of catalog entry references. -/
structure BlockQuery where
  blocks : List BlockFacts
deriving DecidableEq, Repr

namespace BlockQuery

/-- `BlockQuery::apply_easing`. -/
def apply_easing (F : FloatOps) (t : ℚ) (easing : EasingFunction) : ℚ :=
  match easing with
  | .Linear => t
  | .EaseIn => t * t
  | .EaseOut => 1 - (1 - t) * (1 - t)
  | .EaseInOut => if t < 1/2 then 2 * t * t else 1 - 2 * (1 - t) * (1 - t)
  | .CubicBezier _ _ => t * t * (3 - 2 * t)
  | .Sine => F.sinF (t * pi32 / 2)
  | .Exponential => if t = 0 then 0 else F.powF 2 (10 * (t - 1))

/-- `BlockQuery::interpolate_hue`: blend hue along the shortest arc of the
360° circle. -/
def interpolate_hue (start_hue end_hue t : ℚ) : ℚ :=
  let diff := end_hue - start_hue
  let diff := if diff > 180 then diff - 360
              else if diff < -180 then diff + 360
              else diff
  let result := start_hue + diff * t
  if result < 0 then result + 360
  else if result ≥ 360 then result - 360
  else result

/-- `BlockQuery::hsl_to_rgb` (simplified HSL→RGB conversion). -/
def hsl_to_rgb (h s l : ℚ) : RgbU8 :=
  let h := h / 360
  let c := (1 - |2 * l - 1|) * s
  let x := c * (1 - |ratRem (h * 6) 2 - 1|)
  let m := l - c / 2
  let rgb : ℚ × ℚ × ℚ :=
    if h < 1/6 then (c, x, 0)
    else if h < 2/6 then (x, c, 0)
    else if h < 3/6 then (0, c, x)
    else if h < 4/6 then (0, x, c)
    else if h < 5/6 then (x, 0, c)
    else (c, 0, x)
  ⟨f32AsU8 ((rgb.1 + m) * 255), f32AsU8 ((rgb.2.1 + m) * 255), f32AsU8 ((rgb.2.2 + m) * 255)⟩

/-- `BlockQuery::oklab_to_rgb` (simplified approximate conversion). -/
def oklab_to_rgb (oklab : V3) : RgbU8 :=
  let l := min (max oklab.x 0) 1
  let a := oklab.y
  let b := oklab.z
  let r := min (max (l + 3963377774/10000000000 * a + 2158037573/10000000000 * b) 0) 1
  let g := min (max (l - 1055613458/10000000000 * a - 638541728/10000000000 * b) 0) 1
  let bv := min (max (l - 894841775/10000000000 * a - 12914855480/10000000000 * b) 0) 1
  ⟨f32AsU8 (r * 255), f32AsU8 (g * 255), f32AsU8 (bv * 255)⟩

/-- `BlockQuery::lab_to_rgb`: Lab→RGB via XYZ with sRGB gamma; the
non-integral power in the gamma correction comes from `FloatOps`. -/
def lab_to_rgb (F : FloatOps) (lab : ℚ × ℚ × ℚ) : RgbU8 :=
  let l := lab.1
  let a := lab.2.1
  let b := lab.2.2
  let fy := (l + 16) / 116
  let fx := a / 500 + fy
  let fz := fy - b / 200
  let delta : ℚ := 6 / 29
  let deltaCubed := delta * delta * delta
  let x := if fx ^ 3 > deltaCubed then fx ^ 3 else 3 * delta * delta * (fx - 4/29)
  let y := if l > 8 then ((l + 16) / 116) ^ 3 else l / (9033/10)
  let z := if fz ^ 3 > deltaCubed then fz ^ 3 else 3 * delta * delta * (fz - 4/29)
  let x := x * (95047/1000)
  let y := y * 100
  let z := z * (108883/1000)
  let r := x * (32406/1000000) + y * (-15372/1000000) + z * (-4986/1000000)
  let g := x * (-9689/1000000) + y * (18758/1000000) + z * (415/1000000)
  let bv := x * (557/1000000) + y * (-2040/1000000) + z * (10570/1000000)
  let gammaCorrect : ℚ → ℚ := fun c =>
    if c > 31308/10000000 then 1055/1000 * F.powF c (1 / (24/10)) - 55/1000 else 1292/100 * c
  let r := gammaCorrect (r / 100)
  let g := gammaCorrect (g / 100)
  let bv := gammaCorrect (bv / 100)
  ⟨f32AsU8 (min (max r 0) 1 * 255), f32AsU8 (min (max g 0) 1 * 255),
   f32AsU8 (min (max bv 0) 1 * 255)⟩

/-- `BlockQuery::interpolate_rgb`. -/
def interpolate_rgb (F : FloatOps) (s e : ExtendedColorData) (t : ℚ) : ExtendedColorData :=
  let r := f32AsU8 ((s.rgb.r : ℚ) * (1 - t) + (e.rgb.r : ℚ) * t)
  let g := f32AsU8 ((s.rgb.g : ℚ) * (1 - t) + (e.rgb.g : ℚ) * t)
  let b := f32AsU8 ((s.rgb.b : ℚ) * (1 - t) + (e.rgb.b : ℚ) * t)
  ExtendedColorData.from_rgb F r g b

/-- `BlockQuery::interpolate_hsl`. -/
def interpolate_hsl (F : FloatOps) (s e : ExtendedColorData) (t : ℚ) : ExtendedColorData :=
  let h := interpolate_hue s.hsl.x e.hsl.x t
  let sat := s.hsl.y * (1 - t) + e.hsl.y * t
  let l := s.hsl.z * (1 - t) + e.hsl.z * t
  let rgb := hsl_to_rgb h sat l
  ExtendedColorData.from_rgb F rgb.r rgb.g rgb.b

/-- `BlockQuery::interpolate_oklab`. -/
def interpolate_oklab (F : FloatOps) (s e : ExtendedColorData) (t : ℚ) : ExtendedColorData :=
  let l := s.oklab.x * (1 - t) + e.oklab.x * t
  let a := s.oklab.y * (1 - t) + e.oklab.y * t
  let b := s.oklab.z * (1 - t) + e.oklab.z * t
  let rgb := oklab_to_rgb ⟨l, a, b⟩
  ExtendedColorData.from_rgb F rgb.r rgb.g rgb.b

/-- `BlockQuery::interpolate_lab`. -/
def interpolate_lab (F : FloatOps) (s e : ExtendedColorData) (t : ℚ) : ExtendedColorData :=
  let l := s.lab.1 * (1 - t) + e.lab.1 * t
  let a := s.lab.2.1 * (1 - t) + e.lab.2.1 * t
  let b := s.lab.2.2 * (1 - t) + e.lab.2.2 * t
  let rgb := lab_to_rgb F (l, a, b)
  ExtendedColorData.from_rgb F rgb.r rgb.g rgb.b

/-- `BlockQuery::interpolate_color`: dispatch on the color space. -/
def interpolate_color (F : FloatOps) (s e : ExtendedColorData) (t : ℚ)
    (color_space : ColorSpace) : ExtendedColorData :=
  match color_space with
  | .Rgb => interpolate_rgb F s e t
  | .Hsl => interpolate_hsl F s e t
  | .Oklab => interpolate_oklab F s e t
  | .Lab => interpolate_lab F s e t

end BlockQuery

namespace BlockQuery

/-- `BlockQuery::is_solid_block` (identifier-based heuristic). -/
def is_solid_block (block : BlockFacts) : Bool :=
  let id := lowerStr block.id
  !(containsStr id "slab" || containsStr id "stairs" || containsStr id "fence" ||
    containsStr id "gate" || containsStr id "wall" || containsStr id "door" ||
    containsStr id "trapdoor" || containsStr id "button" ||
    containsStr id "pressure_plate" || containsStr id "carpet" ||
    containsStr id "torch" || containsStr id "lantern" || containsStr id "chain" ||
    containsStr id "rod" || containsStr id "bars")

/-- `BlockQuery::is_tile_entity`. -/
def is_tile_entity (block : BlockFacts) : Bool :=
  let id := lowerStr block.id
  containsStr id "chest" || containsStr id "furnace" || containsStr id "dispenser" ||
  containsStr id "dropper" || containsStr id "hopper" || containsStr id "beacon" ||
  containsStr id "brewing_stand" || containsStr id "enchanting_table" ||
  containsStr id "ender_chest" || containsStr id "shulker_box" ||
  containsStr id "barrel" || containsStr id "smoker" || containsStr id "blast_furnace" ||
  containsStr id "campfire" || containsStr id "lectern" || containsStr id "jukebox"

/-- `BlockQuery::is_falling_block`. -/
def is_falling_block (block : BlockFacts) : Bool :=
  let id := lowerStr block.id
  containsStr id "sand" || containsStr id "gravel" || containsStr id "anvil" ||
  containsStr id "concrete_powder"

/-- `BlockQuery::is_transparent`. -/
def is_transparent (block : BlockFacts) : Bool :=
  let id := lowerStr block.id
  containsStr id "glass" || containsStr id "water" || containsStr id "lava" ||
  containsStr id "air" || containsStr id "ice" || containsStr id "slime_block" ||
  containsStr id "honey_block" || containsStr id "barrier" ||
  containsStr id "structure_void"

/-- `BlockQuery::is_light_source`. -/
def is_light_source (block : BlockFacts) : Bool :=
  let id := lowerStr block.id
  containsStr id "torch" || containsStr id "lantern" || containsStr id "glowstone" ||
  containsStr id "sea_lantern" || containsStr id "beacon" || containsStr id "campfire" ||
  containsStr id "fire" || containsStr id "lava" || containsStr id "magma_block" ||
  containsStr id "jack_o_lantern" || containsStr id "redstone_lamp" ||
  containsStr id "shroomlight" || containsStr id "crying_obsidian" ||
  containsStr id "respawn_anchor" || containsStr id "candle" ||
  containsStr id "glow_lichen" || containsStr id "amethyst_cluster"

/-- `BlockQuery::needs_support`. -/
def needs_support (block : BlockFacts) : Bool :=
  let id := lowerStr block.id
  containsStr id "torch" || containsStr id "flower" ||
  (containsStr id "grass" && !containsStr id "grass_block") ||
  containsStr id "fern" || containsStr id "sapling" ||
  (containsStr id "mushroom" && !containsStr id "mushroom_block") ||
  containsStr id "wheat" || containsStr id "carrot" || containsStr id "potato" ||
  containsStr id "beetroot" || containsStr id "sugar_cane" || containsStr id "cactus" ||
  containsStr id "bamboo" || containsStr id "vine" || containsStr id "lily_pad" ||
  containsStr id "seagrass" || containsStr id "kelp" ||
  (containsStr id "coral" && !containsStr id "coral_block") ||
  containsStr id "button" || containsStr id "lever" || containsStr id "sign" ||
  containsStr id "banner" || containsStr id "painting"

/-- `BlockQuery::is_survival_obtainable`. -/
def is_survival_obtainable (block : BlockFacts) : Bool :=
  let id := lowerStr block.id
  !(containsStr id "barrier" || containsStr id "structure_void" ||
    containsStr id "structure_block" || containsStr id "command_block" ||
    containsStr id "chain_command_block" || containsStr id "repeating_command_block" ||
    containsStr id "jigsaw" || containsStr id "debug_stick" ||
    containsStr id "knowledge_book" || containsStr id "spawn_egg")

/-- The inner loop of `BlockQuery::matches_pattern`: iterate over the
`split('*')` parts with their indices, tracking the search position. -/
def matchesPatternLoop (text : List Char) (n : ℕ) :
    List (ℕ × List Char) → ℕ → Bool
  | [], _ => true
  | (i, part) :: rest, searchPos =>
    if part.isEmpty then matchesPatternLoop text n rest searchPos
    else if i = 0 then
      if part.isPrefixOf text then matchesPatternLoop text n rest part.length
      else false
    else if i = n - 1 then
      if part.isSuffixOf text then matchesPatternLoop text n rest searchPos
      else false
    else
      match findSub (text.drop searchPos) part with
      | some pos => matchesPatternLoop text n rest (searchPos + pos + part.length)
      | none => false

/-- `BlockQuery::matches_pattern` (wildcard matching). -/
def matches_pattern (text pattern : String) : Bool :=
  let parts := List.splitOn '*' pattern.data
  if parts.isEmpty then true
  else matchesPatternLoop text.data parts.length parts.enum 0

/-- Everything after the first `:` of an identifier (`id.find(':')` slice). -/
def afterColon : List Char → Option (List Char)
  | [] => none
  | c :: rest => if c = ':' then some rest else afterColon rest

/-- `BlockQuery::get_block_family`. -/
def get_block_family (block : BlockFacts) : String :=
  match afterColon block.id.data with
  | some nameChars =>
    let np : String := ⟨nameChars⟩
    if ("_stairs" : String).data.isSuffixOf nameChars then "stairs"
    else if ("_slab" : String).data.isSuffixOf nameChars then "slab"
    else if ("_wool" : String).data.isSuffixOf nameChars then "wool"
    else if ("_concrete" : String).data.isSuffixOf nameChars then "concrete"
    else if ("_log" : String).data.isSuffixOf nameChars then "log"
    else if ("_planks" : String).data.isSuffixOf nameChars then "planks"
    else if ("_leaves" : String).data.isSuffixOf nameChars then "leaves"
    else if containsStr np "stone" && !containsStr np "redstone" then "stone"
    else if containsStr np "glass" then "glass"
    else np
  | none => block.id

/-- `Vec::retain` over the working set: the shared shape of every filter
method (`self.blocks.retain(pred); self`). -/
def retainP (q : BlockQuery) (p : BlockFacts → Bool) : BlockQuery :=
  ⟨q.blocks.filter p⟩

/-- `BlockQuery::only_solid`. -/
def only_solid (q : BlockQuery) : BlockQuery := q.retainP is_solid_block

/-- `BlockQuery::exclude_tile_entities`. -/
def exclude_tile_entities (q : BlockQuery) : BlockQuery :=
  q.retainP (fun b => !is_tile_entity b)

/-- `BlockQuery::exclude_falling`. -/
def exclude_falling (q : BlockQuery) : BlockQuery :=
  q.retainP (fun b => !is_falling_block b)

/-- `BlockQuery::exclude_transparent`. -/
def exclude_transparent (q : BlockQuery) : BlockQuery :=
  q.retainP (fun b => !is_transparent b)

/-- `BlockQuery::exclude_light_sources`. -/
def exclude_light_sources (q : BlockQuery) : BlockQuery :=
  q.retainP (fun b => !is_light_source b)

/-- `BlockQuery::exclude_needs_support`. -/
def exclude_needs_support (q : BlockQuery) : BlockQuery :=
  q.retainP (fun b => !needs_support b)

/-- `BlockQuery::survival_only`. -/
def survival_only (q : BlockQuery) : BlockQuery :=
  q.retainP is_survival_obtainable

/-- `BlockQuery::with_color`. -/
def with_color (q : BlockQuery) : BlockQuery :=
  q.retainP (fun b => b.color.isSome)

/-- `BlockQuery::with_property`. -/
def with_property (q : BlockQuery) (property : String) : BlockQuery :=
  q.retainP (fun b => b.has_property property)

/-- `BlockQuery::with_property_value`. -/
def with_property_value (q : BlockQuery) (property value : String) : BlockQuery :=
  q.retainP (fun b =>
    b.get_property property = some value ||
    ((b.get_property_values property).map (fun vs => vs.contains value)).getD false)

/-- `BlockQuery::matching` (name pattern with wildcards). -/
def matching (q : BlockQuery) (pattern : String) : BlockQuery :=
  let pattern := lowerStr pattern
  q.retainP (fun b =>
    let id := lowerStr b.id
    if pattern.data.contains '*' then matches_pattern id pattern
    else containsStr id pattern)

/-- `BlockQuery::from_families`. -/
def from_families (q : BlockQuery) (families : List String) : BlockQuery :=
  let family_set := families.map lowerStr
  q.retainP (fun b => family_set.contains (lowerStr (get_block_family b)))

/-- `BlockQuery::exclude_families`. -/
def exclude_families (q : BlockQuery) (families : List String) : BlockQuery :=
  let family_set := families.map lowerStr
  q.retainP (fun b => !family_set.contains (lowerStr (get_block_family b)))

/-- `BlockQuery::similar_to_color`.  The source keeps entries with
`distance_oklab(target) <= tolerance`; by `dist_le_tol_iff_sq` below this is
the decidable test `0 ≤ tolerance ∧ distSq ≤ tolerance²`. -/
def similar_to_color (q : BlockQuery) (F : FloatOps)
    (target_color : ExtendedColorData) (tolerance : ℚ) : BlockQuery :=
  q.retainP (fun b =>
    match b.color with
    | some c => decide (0 ≤ tolerance ∧
        ExtendedColorData.distSqOklab (c.to_extended F) target_color ≤ tolerance * tolerance)
    | none => false)

/-- `BlockQuery::limit` (`Vec::truncate`). -/
def limit (q : BlockQuery) (count : ℕ) : BlockQuery := ⟨q.blocks.take count⟩

/-- `BlockQuery::sort_by_name` (stable sort by identifier). -/
def sort_by_name (q : BlockQuery) : BlockQuery :=
  ⟨q.blocks.mergeSort (fun a b => decide (a.id ≤ b.id))⟩

/-- The `Option ℚ` order used by `sort_by_color_similarity`, with `none`
standing for `f32::INFINITY` (`partial_cmp(..).unwrap_or(Equal)` never sees
a NaN here, and `INFINITY ≤ INFINITY`). -/
def infLe : Option ℚ → Option ℚ → Bool
  | _, none => true
  | none, some _ => false
  | some a, some b => decide (a ≤ b)

/-- `BlockQuery::sort_by_color_similarity` (stable sort by Oklab distance to
a reference color; uncolored entries get infinite distance). -/
def sort_by_color_similarity (q : BlockQuery) (F : FloatOps)
    (reference : ExtendedColorData) : BlockQuery :=
  let key : BlockFacts → Option ℚ := fun b =>
    b.color.map (fun c => ExtendedColorData.distSqOklab (c.to_extended F) reference)
  ⟨q.blocks.mergeSort (fun a b => infLe (key a) (key b))⟩

/-- `BlockQuery::collect`. -/
def collect (q : BlockQuery) : List BlockFacts := q.blocks

/-- `BlockQuery::count`. -/
def count (q : BlockQuery) : ℕ := q.blocks.length

/-- `BlockQuery::len`. -/
def len (q : BlockQuery) : ℕ := q.blocks.length

/-- `BlockQuery::is_empty`. -/
def is_empty (q : BlockQuery) : Bool := q.blocks.isEmpty

/-- `BlockQuery::first`. -/
def first (q : BlockQuery) : Option BlockFacts := q.blocks.head?

/-- `BlockQuery::any`. -/
def any (q : BlockQuery) : Bool := !q.blocks.isEmpty

end BlockQuery

/-- `sqrt d ≤ tol` for a nonnegative radicand is the squared comparison used
in `similar_to_color`. -/
theorem dist_le_tol_iff_sq {d tol : ℝ} (hd : 0 ≤ d) :
    Real.sqrt d ≤ tol ↔ 0 ≤ tol ∧ d ≤ tol * tol := by
  constructor
  · intro h
    have h0 : 0 ≤ tol := le_trans (Real.sqrt_nonneg d) h
    refine ⟨h0, ?_⟩
    nlinarith [Real.sq_sqrt hd, Real.sqrt_nonneg d]
  · rintro ⟨h0, hle⟩
    have : Real.sqrt d ≤ Real.sqrt (tol * tol) := Real.sqrt_le_sqrt hle
    simpa [Real.sqrt_mul_self h0] using this

/-- The strict-`<` best-candidate scan shared by
`BlockQuery::find_closest_color_block`, the inline resolution loop of
`generate_multi_gradient`, and
`BlockPaletteGenerator::find_closest_block_to_color`: walk the catalog,
keeping the first entry of strictly smaller distance; `best = none` is the
initial `(None, f32::INFINITY)` state. -/
def closestScan (F : FloatOps) (target : ExtendedColorData) :
    List BlockFacts → Option (BlockFacts × ℚ) → Option BlockFacts
  | [], best => best.map (·.1)
  | b :: rest, best =>
    match b.color with
    | none => closestScan F target rest best
    | some c =>
      let d := ExtendedColorData.distSqOklab (c.to_extended F) target
      let better : Bool := match best with
        | none => true
        | some p => decide (d < p.2)
      if better then closestScan F target rest (some (b, d))
      else closestScan F target rest best

namespace BlockQuery

/-- `BlockQuery::find_closest_color_block`. -/
def find_closest_color_block (F : FloatOps) (catalog : Catalog)
    (target : ExtendedColorData) : Option BlockFacts :=
  closestScan F target catalog none

/-- `BlockQuery::create_gradient_colors`. -/
def create_gradient_colors (F : FloatOps)
    (start_color end_color : ExtendedColorData) (config : GradientConfig) :
    List ExtendedColorData :=
  (List.range config.steps).map (fun i =>
    let t : ℚ := if config.steps = 1 then 0 else (i : ℚ) / ((config.steps - 1 : ℕ) : ℚ)
    let eased_t := apply_easing F t config.easing
    interpolate_color F start_color end_color eased_t config.color_space)

/-- `BlockQuery::create_multi_gradient_colors`: concatenate per-segment
gradients, skipping the duplicated boundary color of every segment after the
first. -/
def create_multi_gradient_colors (F : FloatOps) (colors : List ExtendedColorData)
    (config : GradientConfig) : List ExtendedColorData :=
  match colors with
  | [] => []
  | [c] => List.replicate config.steps c
  | _ =>
    let segment_steps := config.steps / (colors.length - 1)
    ((colors.zip colors.tail).enum).foldl (fun result p =>
      let seg := create_gradient_colors F p.2.1 p.2.2
        { config with steps := segment_steps }
      if p.1 > 0 then result ++ seg.drop 1 else result ++ seg) []

/-- The candidate list of one resolution step of
`generate_gradient_between_colors_static`: every colored, not-yet-used
catalog entry paired with its distance to the target color. -/
def candidatesFor (F : FloatOps) (catalog : Catalog) (used : List String)
    (target : ExtendedColorData) : List (BlockFacts × ℚ) :=
  catalog.filterMap (fun b =>
    match b.color with
    | some c =>
      if used.contains b.id then none
      else some (b, ExtendedColorData.distSqOklab (c.to_extended F) target)
    | none => none)

/-- The resolution loop of `generate_gradient_between_colors_static`: for
each target color, stably sort the unused colored candidates by distance
(`Vec::sort_by`), pick the first, and mark its identifier used. -/
def resolveLoop (F : FloatOps) (catalog : Catalog) :
    List ExtendedColorData → List String → List BlockFacts
  | [], _ => []
  | target :: rest, used =>
    let sorted := (candidatesFor F catalog used target).mergeSort
      (fun a b => decide (a.2 ≤ b.2))
    match sorted.head? with
    | some p => p.1 :: resolveLoop F catalog rest (p.1.id :: used)
    | none => resolveLoop F catalog rest used

/-- `BlockQuery::generate_gradient_between_colors_static`. -/
def generate_gradient_between_colors_static (F : FloatOps) (catalog : Catalog)
    (start_color end_color : ExtendedColorData) (config : GradientConfig) :
    BlockQuery :=
  let colors :=
    if config.steps = 1 then [start_color]
    else if config.steps = 2 then [start_color, end_color]
    else (List.range config.steps).map (fun i =>
      let t : ℚ := if config.steps = 1 then 0
                   else (i : ℚ) / ((config.steps - 1 : ℕ) : ℚ)
      let eased_t := apply_easing F t config.easing
      interpolate_color F start_color end_color eased_t config.color_space)
  ⟨resolveLoop F catalog colors []⟩

/-- `BlockQuery::generate_gradient`: endpoints are the first and last
colored members of the working set; their `unwrap`s are modelled in
`Option`. -/
def generate_gradient (F : FloatOps) (catalog : Catalog) (q : BlockQuery)
    (config : GradientConfig) : Option BlockQuery :=
  let colored := q.blocks.filter (fun b => b.color.isSome)
  if colored.length < 2 then some ⟨colored⟩
  else do
    let sb ← colored.head?
    let sc ← sb.color
    let eb ← colored.getLast?
    let ec ← eb.color
    some (generate_gradient_between_colors_static F catalog
      (sc.to_extended F) (ec.to_extended F) config)

/-- `BlockQuery::generate_gradient_between_blocks`. -/
def generate_gradient_between_blocks (F : FloatOps) (catalog : Catalog)
    (start_block_id end_block_id : String) (config : GradientConfig) : BlockQuery :=
  match blocksGet catalog start_block_id, blocksGet catalog end_block_id with
  | some s, some e =>
    match s.color, e.color with
    | some sc, some ec =>
      generate_gradient_between_colors_static F catalog
        (sc.to_extended F) (ec.to_extended F) config
    | _, _ => ⟨[]⟩
  | _, _ => ⟨[]⟩

/-- `BlockQuery::generate_gradient_between_colors` (a chainable method that
ignores its working set and runs the static resolution over the catalog). -/
def generate_gradient_between_colors (_q : BlockQuery) (F : FloatOps)
    (catalog : Catalog) (start_color end_color : ExtendedColorData)
    (config : GradientConfig) : BlockQuery :=
  generate_gradient_between_colors_static F catalog start_color end_color config

/-- `BlockQuery::generate_multi_gradient`: anchors are all colored members
of the working set; each target color is resolved by the strict-`<` scan
with no used-set tracking. -/
def generate_multi_gradient (F : FloatOps) (catalog : Catalog) (q : BlockQuery)
    (config : GradientConfig) : Option BlockQuery :=
  let colored := q.blocks.filter (fun b => b.color.isSome)
  if colored.isEmpty then some ⟨[]⟩
  else if colored.length = 1 then
    match colored with
    | c :: _ => some ⟨List.replicate (min config.steps 1) c⟩
    | [] => none
  else do
    let cds ← colored.mapM (fun b => b.color)
    let colors := cds.map (fun c => c.to_extended F)
    let gradient_colors := create_multi_gradient_colors F colors config
    some ⟨gradient_colors.filterMap (fun target => closestScan F target catalog none)⟩

/-- The inner index scan of `sort_by_color_gradient`: starting from
`best_index = 0`, `best_distance = INFINITY`, keep the first strictly
smaller distance. -/
def scanBest : List ℚ → ℕ → ℕ → Option ℚ → ℕ
  | [], _, best, _ => best
  | d :: rest, i, best, bestD =>
    let better : Bool := match bestD with
      | none => true
      | some bd => decide (d < bd)
    if better then scanBest rest (i + 1) i (some d)
    else scanBest rest (i + 1) best bestD

/-- Index of the first minimal element of a distance list. -/
def bestIdx (ds : List ℚ) : ℕ := scanBest ds 0 0 none

/-- The greedy chain loop of `sort_by_color_gradient`: repeatedly pick (and
remove) the remaining entry closest to the entry just placed.  The color
`unwrap`s and the `remove(best_index)` are modelled in `Option`. -/
def chainLoop (F : FloatOps) (last : BlockFacts) (remaining : List BlockFacts) :
    Option (List BlockFacts) :=
  match hrem : remaining with
  | [] => some []
  | _ :: _ =>
    match last.color with
    | none => none
    | some cc =>
      match remaining.mapM (fun b => b.color.map (fun c =>
          ExtendedColorData.distSqOklab (c.to_extended F) (cc.to_extended F))) with
      | none => none
      | some ds =>
        let idx := bestIdx ds
        match hget : remaining[idx]? with
        | none => none
        | some b =>
          have hlt : idx < remaining.length := by
            by_contra hge
            simp [List.getElem?_eq_none (le_of_not_lt hge)] at hget
          have : (remaining.eraseIdx idx).length < remaining.length := by
            rw [List.length_eraseIdx_of_lt hlt]
            omega
          (chainLoop F b (remaining.eraseIdx idx)).map (fun tail => b :: tail)
termination_by remaining.length
decreasing_by simpa [hrem] using this

/-- `BlockQuery::sort_by_color_gradient`. -/
def sort_by_color_gradient (F : FloatOps) (q : BlockQuery) : Option BlockQuery :=
  if q.blocks.length ≤ 1 then some q
  else
    let colored := q.blocks.filter (fun b => b.color.isSome)
    if colored.length ≤ 1 then some ⟨colored⟩
    else
      match colored with
      | [] => none
      | b0 :: rest => (chainLoop F b0 rest).map (fun tail => ⟨b0 :: tail⟩)

end BlockQuery

-- === src/color/palettes.rs ===

/-- `GradientMethod` from `src/color/palettes.rs`. -/
inductive GradientMethod where
  | LinearRgb
  | LinearHsl
  | LinearOklab
  | CubicBezier
deriving DecidableEq, Repr

/-- `ColorGradient`. -/
structure ColorGradient where
  colors : List ExtendedColorData
  method : GradientMethod
  steps : ℕ
deriving DecidableEq, Repr

/-- Module-level `hsl_to_rgb` of `src/color/palettes.rs` (same body as the
query builder's copy). -/
def palettesHslToRgb (h s l : ℚ) : RgbU8 :=
  let h := h / 360
  let c := (1 - |2 * l - 1|) * s
  let x := c * (1 - |ratRem (h * 6) 2 - 1|)
  let m := l - c / 2
  let rgb : ℚ × ℚ × ℚ :=
    if h < 1/6 then (c, x, 0)
    else if h < 2/6 then (x, c, 0)
    else if h < 3/6 then (0, c, x)
    else if h < 4/6 then (0, x, c)
    else if h < 5/6 then (x, 0, c)
    else (c, 0, x)
  ⟨f32AsU8 ((rgb.1 + m) * 255), f32AsU8 ((rgb.2.1 + m) * 255), f32AsU8 ((rgb.2.2 + m) * 255)⟩

/-- Module-level `oklab_to_rgb` of `src/color/palettes.rs`. -/
def palettesOklabToRgb (oklab : V3) : RgbU8 :=
  let l := min (max oklab.x 0) 1
  let a := oklab.y
  let b := oklab.z
  let r := min (max (l + 3963377774/10000000000 * a + 2158037573/10000000000 * b) 0) 1
  let g := min (max (l - 1055613458/10000000000 * a - 638541728/10000000000 * b) 0) 1
  let bv := min (max (l - 894841775/10000000000 * a - 12914855480/10000000000 * b) 0) 1
  ⟨f32AsU8 (r * 255), f32AsU8 (g * 255), f32AsU8 (bv * 255)⟩

namespace ColorGradient

/-- `ColorGradient::new_two_color`. -/
def new_two_color (start_color end_color : ExtendedColorData) (steps : ℕ)
    (method : GradientMethod) : ColorGradient :=
  ⟨[start_color, end_color], method, steps⟩

/-- `ColorGradient::interpolate_hue` (identical body to the query builder's
`interpolate_hue`). -/
def interpolate_hue (start_hue end_hue t : ℚ) : ℚ :=
  let diff := end_hue - start_hue
  let diff := if diff > 180 then diff - 360
              else if diff < -180 then diff + 360
              else diff
  let result := start_hue + diff * t
  if result < 0 then result + 360
  else if result ≥ 360 then result - 360
  else result

/-- `ColorGradient::interpolate_rgb`. -/
def interpolate_rgb (F : FloatOps) (s e : ExtendedColorData) (t : ℚ) :
    ExtendedColorData :=
  let r := f32AsU8 ((s.rgb.r : ℚ) * (1 - t) + (e.rgb.r : ℚ) * t)
  let g := f32AsU8 ((s.rgb.g : ℚ) * (1 - t) + (e.rgb.g : ℚ) * t)
  let b := f32AsU8 ((s.rgb.b : ℚ) * (1 - t) + (e.rgb.b : ℚ) * t)
  ExtendedColorData.from_rgb F r g b

/-- `ColorGradient::interpolate_hsl`. -/
def interpolate_hsl (F : FloatOps) (s e : ExtendedColorData) (t : ℚ) :
    ExtendedColorData :=
  let h := interpolate_hue s.hsl.x e.hsl.x t
  let sat := s.hsl.y * (1 - t) + e.hsl.y * t
  let l := s.hsl.z * (1 - t) + e.hsl.z * t
  let rgb := palettesHslToRgb h sat l
  ExtendedColorData.from_rgb F rgb.r rgb.g rgb.b

/-- `ColorGradient::interpolate_oklab`. -/
def interpolate_oklab (F : FloatOps) (s e : ExtendedColorData) (t : ℚ) :
    ExtendedColorData :=
  let l := s.oklab.x * (1 - t) + e.oklab.x * t
  let a := s.oklab.y * (1 - t) + e.oklab.y * t
  let b := s.oklab.z * (1 - t) + e.oklab.z * t
  let rgb := palettesOklabToRgb ⟨l, a, b⟩
  ExtendedColorData.from_rgb F rgb.r rgb.g rgb.b

/-- `ColorGradient::interpolate_cubic_bezier` (smoothstep then RGB blend). -/
def interpolate_cubic_bezier (F : FloatOps) (s e : ExtendedColorData) (t : ℚ) :
    ExtendedColorData :=
  let t_smooth := t * t * (3 - 2 * t)
  interpolate_rgb F s e t_smooth

/-- `ColorGradient::interpolate_colors`. -/
def interpolate_colors (F : FloatOps) (g : ColorGradient)
    (s e : ExtendedColorData) (t : ℚ) : ExtendedColorData :=
  match g.method with
  | .LinearRgb => interpolate_rgb F s e t
  | .LinearHsl => interpolate_hsl F s e t
  | .LinearOklab => interpolate_oklab F s e t
  | .CubicBezier => interpolate_cubic_bezier F s e t

/-- `ColorGradient::generate`: per-segment interpolation with the last
segment receiving the remaining steps; the final `colors.last().unwrap()`
is modelled in `Option`. -/
def generate (F : FloatOps) (g : ColorGradient) : Option (List ExtendedColorData) :=
  if g.colors.length < 2 then some g.colors
  else
    let segments := g.colors.length - 1
    let steps_per_segment := g.steps / segments
    let palette := ((g.colors.zip g.colors.tail).enum).foldl (fun palette p =>
      let seg := p.1
      let segment_steps :=
        if seg = segments - 1 then g.steps - seg * steps_per_segment
        else steps_per_segment
      palette ++ (List.range segment_steps).map (fun i =>
        let t : ℚ := if segment_steps = 1 then 0
                     else (i : ℚ) / ((segment_steps - 1 : ℕ) : ℚ)
        interpolate_colors F g p.2.1 p.2.2 t)) []
    if palette.length < g.steps then
      (g.colors.getLast?).map (fun c => palette ++ [c])
    else some palette

end ColorGradient

namespace PaletteGenerator

/-- `PaletteGenerator::generate_gradient_palette`. -/
def generate_gradient_palette (F : FloatOps)
    (start_color end_color : ExtendedColorData) (steps : ℕ)
    (method : GradientMethod) : Option (List ExtendedColorData) :=
  (ColorGradient.new_two_color start_color end_color steps method).generate F

end PaletteGenerator

-- === src/color/block_palettes.rs ===

/-- `PaletteTheme`. -/
inductive PaletteTheme where
  | Monochrome
  | Gradient
  | Complementary
  | Analogous
  | Triadic
  | Natural
  | Architectural
  | Seasonal
deriving DecidableEq, Repr

/-- `BlockRole`. -/
inductive BlockRole where
  | Primary
  | Secondary
  | Accent
  | Transition
  | Highlight
deriving DecidableEq, Repr

/-- `BlockRecommendation`. -/
structure BlockRecommendation where
  block : BlockFacts
  color : ExtendedColorData
  role : BlockRole
  usage_notes : String
deriving DecidableEq, Repr

/-- `BlockPalette`. -/
structure BlockPalette where
  name : String
  description : String
  blocks : List BlockRecommendation
  theme : PaletteTheme
deriving DecidableEq, Repr

/-- `BlockFilter`. -/
structure BlockFilter where
  exclude_falling : Bool
  exclude_tile_entities : Bool
  full_blocks_only : Bool
  exclude_needs_support : Bool
  exclude_transparent : Bool
  exclude_light_sources : Bool
  survival_obtainable_only : Bool
  exclude_patterns : List String
  include_patterns : List String
deriving DecidableEq, Repr

namespace BlockFilter

/-- `BlockFilter::default()` (`#[derive(Default)]`: all flags off, no
patterns). -/
def default : BlockFilter := ⟨false, false, false, false, false, false, false, [], []⟩

/-- `BlockFilter::is_falling_block` (takes the lowercased id). -/
def is_falling_block (id : String) : Bool :=
  containsStr id "sand" || containsStr id "gravel" || containsStr id "anvil" ||
  containsStr id "concrete_powder"

/-- `BlockFilter::is_tile_entity`. -/
def is_tile_entity (id : String) : Bool :=
  containsStr id "chest" || containsStr id "furnace" || containsStr id "dispenser" ||
  containsStr id "dropper" || containsStr id "hopper" || containsStr id "beacon" ||
  containsStr id "brewing_stand" || containsStr id "enchanting_table" ||
  containsStr id "ender_chest" || containsStr id "shulker_box" ||
  containsStr id "barrel" || containsStr id "smoker" || containsStr id "blast_furnace" ||
  containsStr id "campfire" || containsStr id "lectern" || containsStr id "jukebox"

/-- `BlockFilter::is_full_block`. -/
def is_full_block (id : String) : Bool :=
  !(containsStr id "slab" || containsStr id "stairs" || containsStr id "fence" ||
    containsStr id "gate" || containsStr id "wall" || containsStr id "door" ||
    containsStr id "trapdoor" || containsStr id "button" ||
    containsStr id "pressure_plate" || containsStr id "carpet" ||
    containsStr id "torch" || containsStr id "lantern" || containsStr id "chain" ||
    containsStr id "rod" || containsStr id "bars")

/-- `BlockFilter::needs_support`. -/
def needs_support (id : String) : Bool :=
  containsStr id "torch" || containsStr id "flower" ||
  (containsStr id "grass" && !containsStr id "grass_block") ||
  containsStr id "fern" || containsStr id "sapling" ||
  (containsStr id "mushroom" && !containsStr id "mushroom_block") ||
  containsStr id "wheat" || containsStr id "carrot" || containsStr id "potato" ||
  containsStr id "beetroot" || containsStr id "sugar_cane" || containsStr id "cactus" ||
  containsStr id "bamboo" || containsStr id "vine" || containsStr id "lily_pad" ||
  containsStr id "seagrass" || containsStr id "kelp" ||
  (containsStr id "coral" && !containsStr id "coral_block") ||
  containsStr id "button" || containsStr id "lever" || containsStr id "sign" ||
  containsStr id "banner" || containsStr id "painting"

/-- `BlockFilter::is_transparent`. -/
def is_transparent (id : String) : Bool :=
  containsStr id "glass" || containsStr id "water" || containsStr id "lava" ||
  containsStr id "air" || containsStr id "ice" || containsStr id "slime_block" ||
  containsStr id "honey_block" || containsStr id "barrier" ||
  containsStr id "structure_void"

/-- `BlockFilter::is_light_source`. -/
def is_light_source (id : String) : Bool :=
  containsStr id "torch" || containsStr id "lantern" || containsStr id "glowstone" ||
  containsStr id "sea_lantern" || containsStr id "beacon" || containsStr id "campfire" ||
  containsStr id "fire" || containsStr id "lava" || containsStr id "magma_block" ||
  containsStr id "jack_o_lantern" || containsStr id "redstone_lamp" ||
  containsStr id "shroomlight" || containsStr id "crying_obsidian" ||
  containsStr id "respawn_anchor" || containsStr id "candle" ||
  containsStr id "glow_lichen" || containsStr id "amethyst_cluster"

/-- `BlockFilter::is_survival_obtainable`. -/
def is_survival_obtainable (id : String) : Bool :=
  !(containsStr id "barrier" || containsStr id "structure_void" ||
    containsStr id "structure_block" || containsStr id "command_block" ||
    containsStr id "chain_command_block" || containsStr id "repeating_command_block" ||
    containsStr id "jigsaw" || containsStr id "debug_stick" ||
    containsStr id "knowledge_book" || containsStr id "spawn_egg")

/-- `BlockFilter::allows_block`: the sequence of early-return checks. -/
def allows_block (f : BlockFilter) (block : BlockFacts) : Bool :=
  let id := lowerStr block.id
  if !f.include_patterns.isEmpty &&
      !(f.include_patterns.any (fun pat => containsStr id (lowerStr pat))) then false
  else if f.exclude_patterns.any (fun pat => containsStr id (lowerStr pat)) then false
  else if f.exclude_falling && is_falling_block id then false
  else if f.exclude_tile_entities && is_tile_entity id then false
  else if f.full_blocks_only && !is_full_block id then false
  else if f.exclude_needs_support && needs_support id then false
  else if f.exclude_transparent && is_transparent id then false
  else if f.exclude_light_sources && is_light_source id then false
  else if f.survival_obtainable_only && !is_survival_obtainable id then false
  else true

end BlockFilter

namespace BlockPaletteGenerator

/-- `BlockPaletteGenerator::find_closest_block_to_color`. -/
def find_closest_block_to_color (F : FloatOps) (catalog : Catalog)
    (target_color : ExtendedColorData) : Option BlockFacts :=
  closestScan F target_color catalog none

/-- `BlockPaletteGenerator::categorize_block`. -/
def categorize_block (block : BlockFacts) : String :=
  let id := lowerStr block.id
  if containsStr id "stone" || containsStr id "cobblestone" || containsStr id "brick" then
    "stone"
  else if containsStr id "wood" || containsStr id "plank" || containsStr id "log" then
    "wood"
  else if containsStr id "concrete" || containsStr id "terracotta" then "concrete"
  else if containsStr id "wool" || containsStr id "carpet" then "fabric"
  else if containsStr id "glass" then "glass"
  else if containsStr id "metal" || containsStr id "iron" || containsStr id "gold" then
    "metal"
  else "other"

/-- `BlockPaletteGenerator::generate_usage_notes`. -/
def generate_usage_notes (block : BlockFacts) (role : BlockRole) : String :=
  let block_type := categorize_block block
  match role, block_type with
  | .Primary, "stone" => "Excellent for foundations, walls, and main structures"
  | .Primary, "wood" => "Great for frames, floors, and warm architectural elements"
  | .Primary, "concrete" => "Perfect for modern builds and large surfaces"
  | .Secondary, "stone" => "Use for detailing, trim, and structural accents"
  | .Secondary, "wood" => "Ideal for stairs, slabs, and secondary features"
  | .Secondary, _ => "Good for supporting elements and medium-scale features"
  | .Accent, _ => "Use sparingly for highlights, borders, and eye-catching details"
  | .Transition, _ => "Perfect for gradual color changes and smooth blending"
  | .Highlight, _ => "Excellent for focal points, lighting accents, and key features"
  | _, _ => "Versatile block suitable for various building applications"

/-- Capitalize the first character of a word. -/
def capitalizeWord (w : String) : String :=
  match w.data with
  | [] => ""
  | c :: cs => ⟨Char.toUpper c :: cs⟩

/-- `BlockPaletteGenerator::block_display_name`. -/
def block_display_name (block : BlockFacts) : String :=
  let id := block.id
  let base := if ("minecraft:" : String).isPrefixOf id then id.drop 10 else id
  let spaced : String := ⟨base.data.map (fun c => if c = '_' then ' ' else c)⟩
  String.intercalate " "
    (((spaced.split (fun c => c = ' ')).filter (fun w => !w.isEmpty)).map capitalizeWord)

/-- `BlockPaletteGenerator::create_themed_palette_filtered`. -/
def create_themed_palette_filtered (F : FloatOps) (catalog : Catalog)
    (name description : String) (block_ids : List String) (theme : PaletteTheme)
    (filter : BlockFilter) : Option BlockPalette :=
  let blocks := block_ids.enum.foldl (fun blocks p =>
    match blocksGet catalog p.2 with
    | some block =>
      if !filter.allows_block block then blocks
      else
        let i := p.1
        let role : BlockRole :=
          if i = 0 then .Primary
          else if i = 1 then .Secondary
          else if i = block_ids.length - 1 then .Accent
          else .Transition
        let color := (block.color.map (fun c => c.to_extended F)).getD
          (ExtendedColorData.from_rgb F 128 128 128)
        blocks ++ [⟨block, color, role, generate_usage_notes block role⟩]
    | none => blocks) []
  if blocks.isEmpty then none
  else some ⟨name, description, blocks, theme⟩

/-- `BlockPaletteGenerator::generate_forest_palette_filtered`. -/
def generate_forest_palette_filtered (F : FloatOps) (catalog : Catalog)
    (filter : BlockFilter) : Option BlockPalette :=
  create_themed_palette_filtered F catalog "Forest Biome"
    "Natural forest colors with browns, greens, and earth tones"
    ["minecraft:oak_log", "minecraft:oak_leaves", "minecraft:grass_block",
     "minecraft:coarse_dirt", "minecraft:moss_block", "minecraft:fern"]
    .Natural filter

/-- `BlockPaletteGenerator::generate_desert_palette_filtered`. -/
def generate_desert_palette_filtered (F : FloatOps) (catalog : Catalog)
    (filter : BlockFilter) : Option BlockPalette :=
  create_themed_palette_filtered F catalog "Desert Biome"
    "Warm sandy colors and sun-baked earth tones"
    ["minecraft:sand", "minecraft:sandstone", "minecraft:smooth_sandstone",
     "minecraft:cut_sandstone", "minecraft:red_sand", "minecraft:terracotta"]
    .Natural filter

/-- `BlockPaletteGenerator::generate_ocean_palette_filtered`. -/
def generate_ocean_palette_filtered (F : FloatOps) (catalog : Catalog)
    (filter : BlockFilter) : Option BlockPalette :=
  create_themed_palette_filtered F catalog "Ocean Biome"
    "Cool blues and aquatic colors for underwater builds"
    ["minecraft:water", "minecraft:prismarine", "minecraft:dark_prismarine",
     "minecraft:sea_lantern", "minecraft:kelp", "minecraft:sand"]
    .Natural filter

/-- `BlockPaletteGenerator::generate_mountain_palette_filtered`. -/
def generate_mountain_palette_filtered (F : FloatOps) (catalog : Catalog)
    (filter : BlockFilter) : Option BlockPalette :=
  create_themed_palette_filtered F catalog "Mountain Biome"
    "Rocky grays and mineral tones for mountainous terrain"
    ["minecraft:stone", "minecraft:cobblestone", "minecraft:andesite",
     "minecraft:granite", "minecraft:diorite", "minecraft:gravel"]
    .Natural filter

/-- `BlockPaletteGenerator::generate_nether_palette_filtered`. -/
def generate_nether_palette_filtered (F : FloatOps) (catalog : Catalog)
    (filter : BlockFilter) : Option BlockPalette :=
  create_themed_palette_filtered F catalog "Nether Dimension"
    "Dark reds, blacks, and otherworldly colors"
    ["minecraft:netherrack", "minecraft:nether_bricks", "minecraft:blackstone",
     "minecraft:crimson_planks", "minecraft:warped_planks", "minecraft:soul_sand"]
    .Natural filter

/-- `BlockPaletteGenerator::generate_end_palette_filtered`. -/
def generate_end_palette_filtered (F : FloatOps) (catalog : Catalog)
    (filter : BlockFilter) : Option BlockPalette :=
  create_themed_palette_filtered F catalog "End Dimension"
    "Pale yellows, purples, and ethereal tones"
    ["minecraft:end_stone", "minecraft:purpur_block", "minecraft:end_stone_bricks",
     "minecraft:obsidian", "minecraft:chorus_flower", "minecraft:chorus_plant"]
    .Natural filter

/-- `BlockPaletteGenerator::generate_medieval_palette_filtered`. -/
def generate_medieval_palette_filtered (F : FloatOps) (catalog : Catalog)
    (filter : BlockFilter) : Option BlockPalette :=
  create_themed_palette_filtered F catalog "Medieval Architecture"
    "Traditional building materials for castles and medieval structures"
    ["minecraft:cobblestone", "minecraft:oak_planks", "minecraft:stone_bricks",
     "minecraft:dark_oak_planks", "minecraft:mossy_cobblestone", "minecraft:oak_log"]
    .Architectural filter

/-- `BlockPaletteGenerator::generate_modern_palette_filtered`. -/
def generate_modern_palette_filtered (F : FloatOps) (catalog : Catalog)
    (filter : BlockFilter) : Option BlockPalette :=
  create_themed_palette_filtered F catalog "Modern Architecture"
    "Clean lines and contemporary materials for modern builds"
    ["minecraft:white_concrete", "minecraft:light_gray_concrete", "minecraft:glass",
     "minecraft:iron_block", "minecraft:quartz_block", "minecraft:black_concrete"]
    .Architectural filter

/-- `BlockPaletteGenerator::generate_rustic_palette_filtered`. -/
def generate_rustic_palette_filtered (F : FloatOps) (catalog : Catalog)
    (filter : BlockFilter) : Option BlockPalette :=
  create_themed_palette_filtered F catalog "Rustic Style"
    "Natural materials for farmhouses and country builds"
    ["minecraft:stripped_oak_log", "minecraft:cobblestone", "minecraft:coarse_dirt",
     "minecraft:hay_bale", "minecraft:oak_fence", "minecraft:stone"]
    .Architectural filter

/-- `BlockPaletteGenerator::generate_industrial_palette_filtered`. -/
def generate_industrial_palette_filtered (F : FloatOps) (catalog : Catalog)
    (filter : BlockFilter) : Option BlockPalette :=
  create_themed_palette_filtered F catalog "Industrial Style"
    "Metallic and mechanical blocks for factories and tech builds"
    ["minecraft:iron_block", "minecraft:gray_concrete", "minecraft:observer",
     "minecraft:anvil", "minecraft:cauldron", "minecraft:redstone_block"]
    .Architectural filter

/-- `BlockPaletteGenerator::generate_natural_palette_filtered`: dispatch on
the lowercased theme string. -/
def generate_natural_palette_filtered (F : FloatOps) (catalog : Catalog)
    (theme : String) (filter : BlockFilter) : Option BlockPalette :=
  let t := lowerStr theme
  if t = "forest" || t = "woods" then generate_forest_palette_filtered F catalog filter
  else if t = "desert" || t = "sand" then generate_desert_palette_filtered F catalog filter
  else if t = "ocean" || t = "water" then generate_ocean_palette_filtered F catalog filter
  else if t = "mountain" || t = "stone" then generate_mountain_palette_filtered F catalog filter
  else if t = "nether" then generate_nether_palette_filtered F catalog filter
  else if t = "end" then generate_end_palette_filtered F catalog filter
  else none

/-- `BlockPaletteGenerator::generate_natural_palette`. -/
def generate_natural_palette (F : FloatOps) (catalog : Catalog) (theme : String) :
    Option BlockPalette :=
  generate_natural_palette_filtered F catalog theme BlockFilter.default

/-- `BlockPaletteGenerator::generate_architectural_palette_filtered`. -/
def generate_architectural_palette_filtered (F : FloatOps) (catalog : Catalog)
    (style : String) (filter : BlockFilter) : Option BlockPalette :=
  let s := lowerStr style
  if s = "medieval" then generate_medieval_palette_filtered F catalog filter
  else if s = "modern" then generate_modern_palette_filtered F catalog filter
  else if s = "rustic" then generate_rustic_palette_filtered F catalog filter
  else if s = "industrial" then generate_industrial_palette_filtered F catalog filter
  else none

/-- `BlockPaletteGenerator::generate_architectural_palette`. -/
def generate_architectural_palette (F : FloatOps) (catalog : Catalog)
    (style : String) : Option BlockPalette :=
  generate_architectural_palette_filtered F catalog style BlockFilter.default

/-- The per-target resolution loop of `generate_block_gradient_filtered`:
`find_closest_block_to_color` for each gradient color, with the
`block.extras.color?` early return modelled in `Option`. -/
def gradPaletteLoop (F : FloatOps) (catalog : Catalog) (steps : ℕ) :
    List (ℕ × ExtendedColorData) → Option (List BlockRecommendation)
  | [] => some []
  | (i, target) :: rest =>
    match find_closest_block_to_color F catalog target with
    | none => gradPaletteLoop F catalog steps rest
    | some block => do
      let role : BlockRole :=
        if i = 0 then .Primary
        else if i = steps - 1 then .Accent
        else if i = steps / 2 then .Secondary
        else .Transition
      let c ← block.color
      let recs ← gradPaletteLoop F catalog steps rest
      some (⟨block, c.to_extended F, role, generate_usage_notes block role⟩ :: recs)

/-- `BlockPaletteGenerator::generate_block_gradient_filtered`.  Note: the
source declares the filter parameter as `_filter` and never reads it. -/
def generate_block_gradient_filtered (F : FloatOps) (catalog : Catalog)
    (start_block end_block : BlockFacts) (steps : ℕ) (_filter : BlockFilter) :
    Option BlockPalette := do
  let sc ← start_block.color
  let ec ← end_block.color
  let color_gradient ← PaletteGenerator.generate_gradient_palette F
    (sc.to_extended F) (ec.to_extended F) steps .LinearOklab
  let blocks ← gradPaletteLoop F catalog steps color_gradient.enum
  some ⟨block_display_name start_block ++ " to " ++ block_display_name end_block
          ++ " Gradient",
        "A smooth gradient from " ++ block_display_name start_block ++ " to "
          ++ block_display_name end_block ++ " using " ++ toString blocks.length
          ++ " blocks for natural color flow",
        blocks, .Gradient⟩

/-- `BlockPaletteGenerator::generate_block_gradient`. -/
def generate_block_gradient (F : FloatOps) (catalog : Catalog)
    (start_block end_block : BlockFacts) (steps : ℕ) : Option BlockPalette :=
  generate_block_gradient_filtered F catalog start_block end_block steps
    BlockFilter.default

end BlockPaletteGenerator

-- === Greedy-selection machinery ===

/-- First-minimum fold: keep the accumulator unless a strictly smaller key
appears.  This is the semantics of every strict-`<` best-candidate scan in
the source, and (by `head?_mergeSort_eq_foldMin`) also of "stably sort by
key, take the first element". -/
def foldMin {α : Type} (k : α → ℚ) (a : α) (l : List α) : α :=
  l.foldl (fun best x => if k x < k best then x else best) a

theorem foldMin_nil {α : Type} (k : α → ℚ) (a : α) : foldMin k a [] = a := rfl

theorem foldMin_cons {α : Type} (k : α → ℚ) (a x : α) (l : List α) :
    foldMin k a (x :: l) = foldMin k (if k x < k a then x else a) l := rfl

theorem foldMin_mem {α : Type} (k : α → ℚ) :
    ∀ (l : List α) (a : α), foldMin k a l ∈ a :: l := by
  intro l
  induction l with
  | nil => intro a; simp [foldMin_nil]
  | cons x t ih =>
    intro a
    rw [foldMin_cons]
    rcases List.mem_cons.mp (ih (if k x < k a then x else a)) with h | h
    · rw [h]; split <;> simp
    · simp [h]

theorem foldMin_le_start {α : Type} (k : α → ℚ) :
    ∀ (l : List α) (a : α), k (foldMin k a l) ≤ k a := by
  intro l
  induction l with
  | nil => intro a; simp [foldMin_nil]
  | cons x t ih =>
    intro a
    rw [foldMin_cons]
    refine le_trans (ih _) ?_
    split <;> [linarith; rfl]

theorem foldMin_le_mem {α : Type} (k : α → ℚ) :
    ∀ (l : List α) (a : α) (x : α), x ∈ l → k (foldMin k a l) ≤ k x := by
  intro l
  induction l with
  | nil => intro a x hx; simp at hx
  | cons y t ih =>
    intro a x hx
    rw [foldMin_cons]
    rcases List.mem_cons.mp hx with h | h
    · subst h
      refine le_trans (foldMin_le_start k t _) ?_
      split <;> [rfl; linarith]
    · exact ih _ x h

theorem foldMin_eq_start {α : Type} (k : α → ℚ) :
    ∀ (l : List α) (a : α), (∀ x ∈ l, ¬ (k x < k a)) → foldMin k a l = a := by
  intro l
  induction l with
  | nil => intro a _; rfl
  | cons x t ih =>
    intro a h
    rw [foldMin_cons]
    rw [if_neg (h x (List.mem_cons_self x t))]
    exact ih a (fun y hy => h y (List.mem_cons_of_mem x hy))

theorem foldMin_cons_char {α : Type} (k : α → ℚ) :
    ∀ (t : List α) (a h : α),
      foldMin k a (h :: t) = if k (foldMin k h t) < k a then foldMin k h t else a := by
  intro t
  induction t with
  | nil => intro a h; simp [foldMin_cons, foldMin_nil]
  | cons x t' ih =>
    intro a h
    by_cases c1 : k h < k a
    · have e1 : foldMin k a (h :: x :: t') = foldMin k h (x :: t') := by
        rw [foldMin_cons, if_pos c1]
      rw [e1, if_pos (lt_of_le_of_lt (foldMin_le_start k (x :: t') h) c1)]
    · have e1 : foldMin k a (h :: x :: t') = foldMin k a (x :: t') := by
        rw [foldMin_cons, if_neg c1]
      rw [e1, ih a x, ih h x]
      by_cases c2 : k (foldMin k x t') < k h
      · rw [if_pos c2]
      · rw [if_neg c2, if_neg (by push_neg at c1 c2; linarith), if_neg c1]

theorem decideLe_trans {α : Type} (k : α → ℚ) (a b c : α)
    (h1 : decide (k a ≤ k b) = true) (h2 : decide (k b ≤ k c) = true) :
    decide (k a ≤ k c) = true := by
  simp only [decide_eq_true_eq] at *
  linarith

theorem decideLe_total {α : Type} (k : α → ℚ) (a b : α) :
    (decide (k a ≤ k b) || decide (k b ≤ k a)) = true := by
  simp [le_total]

theorem mem_of_head?_eq {α : Type} {l : List α} {a : α} (h : l.head? = some a) :
    a ∈ l := by
  cases l with
  | nil => simp at h
  | cons x t =>
    simp only [List.head?_cons, Option.some.injEq] at h
    simp [h.symm]

/-- The head of a list stably sorted by a rational key is the first element
of minimal key (Rust: `v.sort_by(..); v.first()`). -/
theorem head?_mergeSort_eq_foldMin {α : Type} (k : α → ℚ) :
    ∀ (l : List α), (l.mergeSort (fun a b => decide (k a ≤ k b))).head? =
      match l with
      | [] => none
      | a :: t => some (foldMin k a t) := by
  intro l
  induction l with
  | nil => simp
  | cons a t ih =>
    obtain ⟨l₁, l₂, heq, heq2, hbig⟩ :=
      List.mergeSort_cons (decideLe_trans k) (decideLe_total k) a t
    cases l₁ with
    | nil =>
      simp only [List.nil_append] at heq heq2
      rw [heq]
      simp only [List.head?_cons]
      congr 1
      refine (foldMin_eq_start k t a ?_).symm
      intro x hx
      have hx2 : x ∈ t.mergeSort (fun a b => decide (k a ≤ k b)) :=
        List.mem_mergeSort.mpr hx
      rw [heq2] at hx2
      have hsorted := List.sorted_mergeSort
        (decideLe_trans k) (decideLe_total k) (a :: t)
      rw [heq] at hsorted
      have := (List.pairwise_cons.mp hsorted).1 x hx2
      simp only [decide_eq_true_eq] at this
      linarith
    | cons c l₁' =>
      rw [heq]
      simp only [List.cons_append, List.head?_cons]
      cases t with
      | nil =>
        exfalso
        simp only [List.mergeSort_nil] at heq2
        exact absurd heq2.symm (List.cons_ne_nil _ _)
      | cons h t' =>
        have hc : foldMin k h t' = c := by
          have hhead : ((h :: t').mergeSort fun a b => decide (k a ≤ k b)).head?
              = some c := by rw [heq2]; simp
          rw [ih] at hhead
          simpa using hhead
        have hca : k c < k a := by
          have hb := hbig c (List.mem_cons_self c l₁')
          simp only [Bool.not_eq_true', decide_eq_false_iff_not, not_le] at hb
          exact hb
        show some c = some (foldMin k a (h :: t'))
        rw [foldMin_cons_char k t' a h, hc, if_pos hca]

/-- The colored-candidate pair list of a catalog for a target color. -/
def cands (F : FloatOps) (target : ExtendedColorData) (catalog : Catalog) :
    List (BlockFacts × ℚ) :=
  catalog.filterMap (fun b => b.color.map (fun c =>
    (b, ExtendedColorData.distSqOklab (c.to_extended F) target)))

/-- First-minimum over an optional accumulator (`none` = not found yet). -/
def optFold (p? : Option (BlockFacts × ℚ)) (cs : List (BlockFacts × ℚ)) :
    Option (BlockFacts × ℚ) :=
  match p?, cs with
  | some p, cs => some (foldMin (fun q => q.2) p cs)
  | none, [] => none
  | none, c :: t => some (foldMin (fun q => q.2) c t)

theorem closestScan_eq (F : FloatOps) (target : ExtendedColorData) :
    ∀ (l : List BlockFacts) (acc : Option (BlockFacts × ℚ)),
      closestScan F target l acc = (optFold acc (cands F target l)).map (fun p => p.1) := by
  intro l
  induction l with
  | nil => intro acc; cases acc <;> rfl
  | cons b rest ih =>
    intro acc
    cases hc : b.color with
    | none =>
      have h1 : closestScan F target (b :: rest) acc = closestScan F target rest acc := by
        simp [closestScan, hc]
      have h2 : cands F target (b :: rest) = cands F target rest := by
        simp [cands, hc]
      rw [h1, h2, ih]
    | some c =>
      have h2 : cands F target (b :: rest)
          = (b, ExtendedColorData.distSqOklab (c.to_extended F) target)
            :: cands F target rest := by
        simp [cands, hc]
      cases acc with
      | none =>
        have h1 : closestScan F target (b :: rest) none
            = closestScan F target rest
                (some (b, ExtendedColorData.distSqOklab (c.to_extended F) target)) := by
          simp [closestScan, hc]
        rw [h1, h2, ih]
        rfl
      | some p =>
        by_cases hd : ExtendedColorData.distSqOklab (c.to_extended F) target < p.2
        · have h1 : closestScan F target (b :: rest) (some p)
              = closestScan F target rest
                  (some (b, ExtendedColorData.distSqOklab (c.to_extended F) target)) := by
            simp [closestScan, hc, hd]
          rw [h1, h2, ih]
          simp [optFold, foldMin_cons, hd]
        · have h1 : closestScan F target (b :: rest) (some p)
              = closestScan F target rest (some p) := by
            simp [closestScan, hc, hd]
          rw [h1, h2, ih]
          simp [optFold, foldMin_cons, hd]

theorem candidatesFor_cons_none (F : FloatOps) (b : BlockFacts) (rest : Catalog)
    (used : List String) (t : ExtendedColorData) (hc : b.color = none) :
    BlockQuery.candidatesFor F (b :: rest) used t
      = BlockQuery.candidatesFor F rest used t := by
  unfold BlockQuery.candidatesFor
  rw [List.filterMap_cons]
  simp [hc]

theorem candidatesFor_cons_used (F : FloatOps) (b : BlockFacts) (rest : Catalog)
    (used : List String) (t : ExtendedColorData) {c : ColorData}
    (hc : b.color = some c) (hu : used.contains b.id = true) :
    BlockQuery.candidatesFor F (b :: rest) used t
      = BlockQuery.candidatesFor F rest used t := by
  have hm : b.id ∈ used := by simpa using hu
  unfold BlockQuery.candidatesFor
  rw [List.filterMap_cons]
  simp [hc, hm]

theorem candidatesFor_cons_new (F : FloatOps) (b : BlockFacts) (rest : Catalog)
    (used : List String) (t : ExtendedColorData) {c : ColorData}
    (hc : b.color = some c) (hu : used.contains b.id = false) :
    BlockQuery.candidatesFor F (b :: rest) used t
      = (b, ExtendedColorData.distSqOklab (c.to_extended F) t)
          :: BlockQuery.candidatesFor F rest used t := by
  have hm : b.id ∉ used := by simpa using hu
  unfold BlockQuery.candidatesFor
  rw [List.filterMap_cons]
  simp [hc, hm]

theorem cands_cons_none (F : FloatOps) (t : ExtendedColorData) (b : BlockFacts)
    (rest : Catalog) (hc : b.color = none) :
    cands F t (b :: rest) = cands F t rest := by
  unfold cands
  rw [List.filterMap_cons]
  simp [hc]

theorem cands_cons_some (F : FloatOps) (t : ExtendedColorData) (b : BlockFacts)
    (rest : Catalog) {c : ColorData} (hc : b.color = some c) :
    cands F t (b :: rest)
      = (b, ExtendedColorData.distSqOklab (c.to_extended F) t) :: cands F t rest := by
  unfold cands
  rw [List.filterMap_cons]
  simp [hc]

theorem candidatesFor_nil_used (F : FloatOps) (catalog : Catalog)
    (t : ExtendedColorData) :
    BlockQuery.candidatesFor F catalog [] t = cands F t catalog := by
  induction catalog with
  | nil => rfl
  | cons b rest ih =>
    cases hc : b.color with
    | none => rw [candidatesFor_cons_none F b rest [] t hc, cands_cons_none F t b rest hc, ih]
    | some c =>
      rw [candidatesFor_cons_new F b rest [] t hc (by simp), cands_cons_some F t b rest hc, ih]

theorem contains_singleton (id₁ s : String) :
    (([id₁] : List String).contains s) = (s == id₁) := by
  cases h : s == id₁ <;> simp_all [List.contains]

theorem candidatesFor_single_used (F : FloatOps) (catalog : Catalog)
    (id₁ : String) (t : ExtendedColorData) :
    BlockQuery.candidatesFor F catalog [id₁] t
      = cands F t (catalog.filter (fun b => !(b.id == id₁))) := by
  induction catalog with
  | nil => rfl
  | cons b rest ih =>
    rw [List.filter_cons]
    by_cases hb : b.id = id₁
    · have hcontains : (([id₁] : List String).contains b.id) = true := by
        rw [contains_singleton]; simp [hb]
      rw [if_neg (by simp [hb])]
      cases hc : b.color with
      | none => rw [candidatesFor_cons_none F b rest [id₁] t hc, ih]
      | some c => rw [candidatesFor_cons_used F b rest [id₁] t hc hcontains, ih]
    · have hcontains : (([id₁] : List String).contains b.id) = false := by
        rw [contains_singleton]; simp [hb]
      rw [if_pos (by simp [hb])]
      cases hc : b.color with
      | none =>
        rw [candidatesFor_cons_none F b rest [id₁] t hc, ih,
          cands_cons_none F t b _ hc]
      | some c =>
        rw [candidatesFor_cons_new F b rest [id₁] t hc hcontains, ih,
          cands_cons_some F t b _ hc]

attribute [ext] V3 RgbU8

/-- The final re-normalization step of `interpolate_hue`: bring the blended
hue back into `[0,360)`. -/
def hueRenormalize (q : ℚ) : ℚ :=
  if q < 0 then q + 360 else if q ≥ 360 then q - 360 else q

/-- `interpolate_hue` is: wrap the raw difference onto the shortest arc,
blend, then re-normalize. -/
theorem interpolate_hue_eq (a b u : ℚ) :
    BlockQuery.interpolate_hue a b u =
      hueRenormalize (a + (if b - a > 180 then b - a - 360
        else if b - a < -180 then b - a + 360 else b - a) * u) := rfl

/-- C5: HSL interpolation blends hue along the shortest arc: a raw
difference above 180° (below −180°) is wrapped by −360° (+360°) before
blending, the blended hue is re-normalized into [0,360), the palette
module's copy agrees, and interpolating from hue 350° to hue 10° at t=0.5
gives hue 0° (not 180°). -/
theorem C5_hue_shortest_arc (s e t : ℚ) (hs0 : 0 ≤ s) (hs1 : s < 360)
    (he0 : 0 ≤ e) (he1 : e < 360) (ht0 : 0 ≤ t) (ht1 : t ≤ 1) :
    (0 ≤ BlockQuery.interpolate_hue s e t ∧ BlockQuery.interpolate_hue s e t < 360) ∧
    (e - s > 180 →
      BlockQuery.interpolate_hue s e t = hueRenormalize (s + (e - s - 360) * t)) ∧
    (e - s < -180 →
      BlockQuery.interpolate_hue s e t = hueRenormalize (s + (e - s + 360) * t)) ∧
    ColorGradient.interpolate_hue s e t = BlockQuery.interpolate_hue s e t ∧
    BlockQuery.interpolate_hue 350 10 (1/2) = 0 ∧
    ColorGradient.interpolate_hue 350 10 (1/2) = 0 := by
  refine ⟨?_, ?_, ?_, rfl, by norm_num [BlockQuery.interpolate_hue],
    by norm_num [ColorGradient.interpolate_hue]⟩
  · rw [interpolate_hue_eq]
    set d : ℚ := if e - s > 180 then e - s - 360
      else if e - s < -180 then e - s + 360 else e - s with hd
    have hdb : -180 ≤ d ∧ d ≤ 180 := by
      rw [hd]; split_ifs <;> constructor <;> linarith
    have hp1 : 0 ≤ (d + 180) * t := mul_nonneg (by linarith [hdb.1]) ht0
    have hp2 : 0 ≤ (180 - d) * t := mul_nonneg (by linarith [hdb.2]) ht0
    have hlo : -180 ≤ d * t := by nlinarith
    have hhi : d * t ≤ 180 := by nlinarith
    unfold hueRenormalize
    split_ifs <;> constructor <;> linarith
  · intro h
    rw [interpolate_hue_eq, if_pos h]
  · intro h
    rw [interpolate_hue_eq, if_neg (by linarith), if_pos h]

/-- A sum of three squares over ℚ vanishes iff each term does. -/
theorem sq3_eq_zero_iff (u v w : ℚ) :
    u * u + v * v + w * w = 0 ↔ u = 0 ∧ v = 0 ∧ w = 0 := by
  constructor
  · intro h
    have hu : u * u = 0 := by
      nlinarith [mul_self_nonneg u, mul_self_nonneg v, mul_self_nonneg w]
    have hv : v * v = 0 := by
      nlinarith [mul_self_nonneg u, mul_self_nonneg v, mul_self_nonneg w]
    have hw : w * w = 0 := by
      nlinarith [mul_self_nonneg u, mul_self_nonneg v, mul_self_nonneg w]
    exact ⟨mul_self_eq_zero.mp hu, mul_self_eq_zero.mp hv, mul_self_eq_zero.mp hw⟩
  · rintro ⟨hu, hv, hw⟩
    rw [hu, hv, hw]
    ring

theorem distance_oklab_eq_zero_iff (x y : ExtendedColorData) :
    x.distance_oklab y = 0 ↔ x.oklab = y.oklab := by
  unfold ExtendedColorData.distance_oklab
  rw [Real.sqrt_eq_zero']
  constructor
  · intro h
    have hq : ExtendedColorData.distSqOklab x y = 0 := by
      have h0 := distSqOklab_nonneg x y
      have : ((ExtendedColorData.distSqOklab x y : ℚ) : ℝ) ≤ 0 := h
      exact_mod_cast le_antisymm (by exact_mod_cast this) h0
    unfold ExtendedColorData.distSqOklab at hq
    dsimp only at hq
    obtain ⟨h1, h2, h3⟩ := (sq3_eq_zero_iff _ _ _).mp hq
    ext <;> linarith
  · intro h
    unfold ExtendedColorData.distSqOklab
    rw [h]
    simp

theorem distance_rgb_eq_zero_iff (x y : ExtendedColorData) :
    x.distance_rgb y = 0 ↔ x.rgb = y.rgb := by
  unfold ExtendedColorData.distance_rgb
  rw [Real.sqrt_eq_zero']
  constructor
  · intro h
    have hq : ExtendedColorData.distSqRgb x y = 0 := by
      have h0 := distSqRgb_nonneg x y
      have : ((ExtendedColorData.distSqRgb x y : ℚ) : ℝ) ≤ 0 := h
      exact_mod_cast le_antisymm (by exact_mod_cast this) h0
    unfold ExtendedColorData.distSqRgb at hq
    dsimp only at hq
    obtain ⟨h1, h2, h3⟩ := (sq3_eq_zero_iff _ _ _).mp hq
    ext
    · exact_mod_cast sub_eq_zero.mp h1
    · exact_mod_cast sub_eq_zero.mp h2
    · exact_mod_cast sub_eq_zero.mp h3
  · intro h
    unfold ExtendedColorData.distSqRgb
    rw [h]
    simp

/-- The simplified Oklab map is injective on RGB triples (its linear system
has nonzero determinant). -/
theorem rgb_to_oklab_simple_injective (r g b r' g' b' : ℕ)
    (h : rgb_to_oklab_simple r g b = rgb_to_oklab_simple r' g' b') :
    r = r' ∧ g = g' ∧ b = b' := by
  unfold rgb_to_oklab_simple at h
  injection h with h1 h2 h3
  have hr : (r : ℚ) = (r' : ℚ) := by linarith
  have hg : (g : ℚ) = (g' : ℚ) := by linarith
  have hb : (b : ℚ) = (b' : ℚ) := by linarith
  exact ⟨Nat.cast_injective hr, Nat.cast_injective hg, Nat.cast_injective hb⟩

/-- C6: `distance_oklab` and `distance_rgb` satisfy the metric invariants:
self-distance zero, symmetry, non-negativity; the distance vanishes exactly
when the respective cached representation agrees, and for colors built by
`from_rgb` (whose caches are derived from the RGB source) a vanishing Oklab
distance forces the two colors to be fully identical. -/
theorem C6_distance_metric_laws :
    (∀ x y : ExtendedColorData,
      x.distance_oklab x = 0 ∧ x.distance_rgb x = 0 ∧
      x.distance_oklab y = y.distance_oklab x ∧
      x.distance_rgb y = y.distance_rgb x ∧
      0 ≤ x.distance_oklab y ∧ 0 ≤ x.distance_rgb y ∧
      (x.distance_oklab y = 0 ↔ x.oklab = y.oklab) ∧
      (x.distance_rgb y = 0 ↔ x.rgb = y.rgb)) ∧
    (∀ (F : FloatOps) (r g b r' g' b' : ℕ),
      (ExtendedColorData.from_rgb F r g b).distance_oklab
          (ExtendedColorData.from_rgb F r' g' b') = 0 ↔
        ExtendedColorData.from_rgb F r g b = ExtendedColorData.from_rgb F r' g' b') := by
  constructor
  · intro x y
    refine ⟨?_, ?_, ?_, ?_, Real.sqrt_nonneg _, Real.sqrt_nonneg _,
      distance_oklab_eq_zero_iff x y, distance_rgb_eq_zero_iff x y⟩
    · exact (distance_oklab_eq_zero_iff x x).mpr rfl
    · exact (distance_rgb_eq_zero_iff x x).mpr rfl
    · unfold ExtendedColorData.distance_oklab
      congr 1
      rw [Rat.cast_inj]
      unfold ExtendedColorData.distSqOklab
      dsimp only
      ring
    · unfold ExtendedColorData.distance_rgb
      congr 1
      rw [Rat.cast_inj]
      unfold ExtendedColorData.distSqRgb
      dsimp only
      ring
  · intro F r g b r' g' b'
    rw [distance_oklab_eq_zero_iff]
    constructor
    · intro h
      have h2 : rgb_to_oklab_simple r g b = rgb_to_oklab_simple r' g' b' := h
      obtain ⟨hr, hg, hb⟩ := rgb_to_oklab_simple_injective r g b r' g' b' h2
      rw [hr, hg, hb]
    · intro h
      rw [h]

/-- Witness for C5 at the spec's own example (350° → 10°, t = 0.5). -/
theorem C5_witness :
    ((0:ℚ) ≤ 350 ∧ (350:ℚ) < 360 ∧ (0:ℚ) ≤ 10 ∧ (10:ℚ) < 360 ∧
      (0:ℚ) ≤ 1/2 ∧ (1/2:ℚ) ≤ 1) ∧
    ((0 ≤ BlockQuery.interpolate_hue 350 10 (1/2) ∧
        BlockQuery.interpolate_hue 350 10 (1/2) < 360) ∧
      ((10:ℚ) - 350 > 180 → BlockQuery.interpolate_hue 350 10 (1/2)
          = hueRenormalize (350 + ((10:ℚ) - 350 - 360) * (1/2))) ∧
      ((10:ℚ) - 350 < -180 → BlockQuery.interpolate_hue 350 10 (1/2)
          = hueRenormalize (350 + ((10:ℚ) - 350 + 360) * (1/2))) ∧
      ColorGradient.interpolate_hue 350 10 (1/2)
          = BlockQuery.interpolate_hue 350 10 (1/2) ∧
      BlockQuery.interpolate_hue 350 10 (1/2) = 0 ∧
      ColorGradient.interpolate_hue 350 10 (1/2) = 0) :=
  ⟨⟨by norm_num, by norm_num, by norm_num, by norm_num, by norm_num, by norm_num⟩,
   C5_hue_shortest_arc 350 10 (1/2) (by norm_num) (by norm_num) (by norm_num)
     (by norm_num) (by norm_num) (by norm_num)⟩

/-- Filtering twice composes into filtering by the Boolean conjunction. -/
theorem filter_filter_and (l : List BlockFacts) (p q : BlockFacts → Bool) :
    (l.filter p).filter q = l.filter (fun b => p b && q b) := by
  rw [List.filter_filter]
  exact List.filter_congr (fun b _ => by rw [Bool.and_comm])

/-- C7: applying two working-set filters in either order equals a single
filter by their conjunction; filtering twice by the same predicate equals
filtering once — stated for the generic `retain` shape of every filter
method and instantiated at `with_color` / `similar_to_color`. -/
theorem C7_filter_composition (ws : BlockQuery) (p q : BlockFacts → Bool)
    (F : FloatOps) (c : ExtendedColorData) (tol : ℚ) :
    ((ws.retainP p).retainP q = (ws.retainP q).retainP p) ∧
    ((ws.retainP p).retainP q = ws.retainP (fun b => p b && q b)) ∧
    ((ws.retainP p).retainP p = ws.retainP p) ∧
    ((ws.with_color.similar_to_color F c tol)
        = ((ws.similar_to_color F c tol).with_color)) ∧
    ((ws.similar_to_color F c tol).similar_to_color F c tol
        = ws.similar_to_color F c tol) ∧
    (ws.with_color.with_color = ws.with_color) := by
  have hand : ∀ (l : List BlockFacts) (p q : BlockFacts → Bool),
      (BlockQuery.mk l |>.retainP p).retainP q
        = (BlockQuery.mk l).retainP (fun b => p b && q b) := by
    intro l p q
    unfold BlockQuery.retainP
    rw [filter_filter_and]
  have hcomm : ∀ (l : List BlockFacts) (p q : BlockFacts → Bool),
      (BlockQuery.mk l |>.retainP p).retainP q
        = (BlockQuery.mk l |>.retainP q).retainP p := by
    intro l p q
    rw [hand, hand]
    unfold BlockQuery.retainP
    exact congrArg _ (List.filter_congr (fun b _ => by rw [Bool.and_comm]))
  have hidem : ∀ (l : List BlockFacts) (p : BlockFacts → Bool),
      (BlockQuery.mk l |>.retainP p).retainP p = (BlockQuery.mk l).retainP p := by
    intro l p
    rw [hand]
    unfold BlockQuery.retainP
    exact congrArg _ (List.filter_congr (fun b _ => by rw [Bool.and_self]))
  obtain ⟨bs⟩ := ws
  exact ⟨hcomm bs p q, hand bs p q, hidem bs p,
    hcomm bs _ _, hidem bs _, hidem bs _⟩

/-- C10: every filtering operation returns a subsequence of its input
working set (same relative order, non-matching entries removed): stated for
the generic `retain` shape and for each named filter method. -/
theorem C10_filters_are_subsequences (q : BlockQuery) (p : BlockFacts → Bool)
    (F : FloatOps) (c : ExtendedColorData) (tol : ℚ)
    (property value pattern : String) (families : List String) :
    (q.retainP p).blocks.Sublist q.blocks ∧
    q.only_solid.blocks.Sublist q.blocks ∧
    q.exclude_tile_entities.blocks.Sublist q.blocks ∧
    q.exclude_falling.blocks.Sublist q.blocks ∧
    q.exclude_transparent.blocks.Sublist q.blocks ∧
    q.exclude_light_sources.blocks.Sublist q.blocks ∧
    q.exclude_needs_support.blocks.Sublist q.blocks ∧
    q.survival_only.blocks.Sublist q.blocks ∧
    q.with_color.blocks.Sublist q.blocks ∧
    (q.with_property property).blocks.Sublist q.blocks ∧
    (q.with_property_value property value).blocks.Sublist q.blocks ∧
    (q.matching pattern).blocks.Sublist q.blocks ∧
    (q.from_families families).blocks.Sublist q.blocks ∧
    (q.exclude_families families).blocks.Sublist q.blocks ∧
    (q.similar_to_color F c tol).blocks.Sublist q.blocks :=
  ⟨List.filter_sublist _, List.filter_sublist _, List.filter_sublist _,
   List.filter_sublist _, List.filter_sublist _, List.filter_sublist _,
   List.filter_sublist _, List.filter_sublist _, List.filter_sublist _,
   List.filter_sublist _, List.filter_sublist _, List.filter_sublist _,
   List.filter_sublist _, List.filter_sublist _, List.filter_sublist _⟩

theorem candidatesFor_not_used {F : FloatOps} {catalog : Catalog}
    {used : List String} {t : ExtendedColorData} {p : BlockFacts × ℚ}
    (hp : p ∈ BlockQuery.candidatesFor F catalog used t) :
    used.contains p.1.id = false := by
  unfold BlockQuery.candidatesFor at hp
  obtain ⟨b, _, heq⟩ := List.mem_filterMap.mp hp
  cases hc : b.color with
  | none => simp [hc] at heq
  | some c =>
    simp only [hc] at heq
    cases hu : used.contains b.id with
    | true =>
      rw [if_pos hu] at heq
      exact absurd heq (by simp)
    | false =>
      rw [if_neg (by rw [hu]; exact Bool.false_ne_true)] at heq
      rw [← Option.some.inj heq]
      exact hu

/-- The resolution loop never repeats an identifier, and every produced
identifier avoids the incoming used set. -/
theorem resolveLoop_nodup (F : FloatOps) (catalog : Catalog) :
    ∀ (targets : List ExtendedColorData) (used : List String),
      ((BlockQuery.resolveLoop F catalog targets used).map (fun b => b.id)).Nodup ∧
      ∀ i ∈ (BlockQuery.resolveLoop F catalog targets used).map (fun b => b.id),
        used.contains i = false := by
  intro targets
  induction targets with
  | nil =>
    intro used
    exact ⟨by simp [BlockQuery.resolveLoop], by simp [BlockQuery.resolveLoop]⟩
  | cons t rest ih =>
    intro used
    rw [BlockQuery.resolveLoop]
    cases hh : ((BlockQuery.candidatesFor F catalog used t).mergeSort
        (fun a b => decide (a.2 ≤ b.2))).head? with
    | none => simpa only [hh] using ih used
    | some p =>
      simp only [hh]
      have hpmem : p ∈ BlockQuery.candidatesFor F catalog used t :=
        List.mem_mergeSort.mp (mem_of_head?_eq hh)
      have hpnew : used.contains p.1.id = false := candidatesFor_not_used hpmem
      obtain ⟨hnd, hni⟩ := ih (p.1.id :: used)
      refine ⟨?_, ?_⟩
      · simp only [List.map_cons, List.nodup_cons]
        refine ⟨?_, hnd⟩
        intro hmem
        have := hni _ hmem
        simp [List.contains_cons] at this
      · intro i hi
        simp only [List.map_cons, List.mem_cons] at hi
        rcases hi with hi | hi
        · rw [hi]; exact hpnew
        · have := hni i hi
          simp only [List.contains_cons, Bool.or_eq_false_iff] at this
          exact this.2

/-- The static gradient routine never repeats a catalog identifier. -/
theorem static_gradient_nodup (F : FloatOps) (catalog : Catalog)
    (s e : ExtendedColorData) (cfg : GradientConfig) :
    ((BlockQuery.generate_gradient_between_colors_static F catalog s e cfg).blocks.map
      (fun b => b.id)).Nodup := by
  unfold BlockQuery.generate_gradient_between_colors_static
  exact (resolveLoop_nodup F catalog _ []).1

theorem short_list_nodup {α : Type} (l : List α) (h : l.length ≤ 1) : l.Nodup := by
  cases l with
  | nil => exact List.nodup_nil
  | cons a t =>
    cases t with
    | nil => simp
    | cons b t' => simp at h

/-- C1 (amended): the static-resolution gradient calls — `generate_gradient`
and `generate_gradient_between_colors` (and `generate_gradient_between_blocks`)
— never repeat a catalog identifier, for every step count.
`generate_multi_gradient` tracks no used set and can repeat identifiers
(see the counterexample). -/
theorem C1_gradient_uniqueness (F : FloatOps) (catalog : Catalog)
    (q : BlockQuery) (s e : ExtendedColorData) (cfg : GradientConfig)
    (sid eid : String) :
    (((q.generate_gradient_between_colors F catalog s e cfg).blocks.map
        (fun b => b.id)).Nodup) ∧
    (∀ r, BlockQuery.generate_gradient F catalog q cfg = some r →
      ((r.blocks.map (fun b => b.id)).Nodup)) ∧
    (((BlockQuery.generate_gradient_between_blocks F catalog sid eid cfg).blocks.map
        (fun b => b.id)).Nodup) := by
  refine ⟨static_gradient_nodup F catalog s e cfg, ?_, ?_⟩
  · intro r hr
    simp only [BlockQuery.generate_gradient] at hr
    by_cases hlen : (q.blocks.filter (fun b => b.color.isSome)).length < 2
    · rw [if_pos hlen] at hr
      have hre : r = ⟨q.blocks.filter (fun b => b.color.isSome)⟩ :=
        (Option.some.inj hr).symm
      rw [hre]
      refine short_list_nodup _ ?_
      simp only [List.length_map]
      omega
    · rw [if_neg hlen] at hr
      simp only [Option.bind_eq_bind, Option.bind_eq_some] at hr
      obtain ⟨sb, _, hr⟩ := hr
      obtain ⟨sc, _, hr⟩ := hr
      obtain ⟨eb, _, hr⟩ := hr
      obtain ⟨ec, _, hr⟩ := hr
      have hre : r = BlockQuery.generate_gradient_between_colors_static F catalog
          (sc.to_extended F) (ec.to_extended F) cfg := (Option.some.inj hr).symm
      rw [hre]
      exact static_gradient_nodup F catalog _ _ cfg
  · unfold BlockQuery.generate_gradient_between_blocks
    split
    · split
      · exact static_gradient_nodup F catalog _ _ cfg
      · exact List.nodup_nil
    · exact List.nodup_nil

/-- A concrete `FloatOps` for evaluations; none of the evaluated paths
depend on its values. -/
def F0 : FloatOps :=
  ⟨fun _ => 0, fun _ _ => 0, fun _ _ _ => (0, 0, 0), fun _ _ _ => (0, 0, 0)⟩

/-- A black catalog block. -/
def blkA : BlockFacts := ⟨"a", [], [], false, some ⟨⟨0, 0, 0⟩, ⟨0, 0, 0⟩⟩⟩

/-- A very dark gray catalog block. -/
def blkB : BlockFacts := ⟨"b", [], [], false, some ⟨⟨4, 4, 4⟩, ⟨0, 0, 0⟩⟩⟩

/-- A white catalog block. -/
def blkC : BlockFacts := ⟨"c", [], [], false, some ⟨⟨255, 255, 255⟩, ⟨0, 0, 0⟩⟩⟩

/-- A three-entry catalog with three distinct colored entries. -/
def catABC : Catalog := [blkA, blkB, blkC]

/-- Three RGB-space linear steps. -/
def cfgRgb3 : GradientConfig :=
  ⟨3, ColorSpace.Rgb, ColorSamplingMethod.Dominant, EasingFunction.Linear⟩

/-- C1 counterexample: with steps = 3 ≤ 3 distinct colored catalog entries,
`generate_multi_gradient` (which tracks no used set) returns `blkA` twice:
the midpoint target (2,2,2) ties between `blkA` and `blkB` and the strict
scan keeps the earlier entry. -/
theorem C1_counterexample :
    BlockQuery.generate_multi_gradient F0 catABC ⟨[blkA, blkB]⟩ cfgRgb3
        = some ⟨[blkA, blkA, blkB]⟩ ∧
    cfgRgb3.steps ≤ (catABC.filter (fun b => b.color.isSome)).length ∧
    ¬ (([blkA, blkA, blkB] : List BlockFacts).map (fun b => b.id)).Nodup := by
  refine ⟨by with_unfolding_all decide, by with_unfolding_all decide,
    by with_unfolding_all decide⟩

/-- Witness for C1 at a concrete call. -/
theorem C1_witness :
    (((BlockQuery.mk [blkA, blkB]).generate_gradient_between_colors F0 catABC
        (ExtendedColorData.from_rgb F0 0 0 0) (ExtendedColorData.from_rgb F0 4 4 4)
        cfgRgb3).blocks.map (fun b => b.id)).Nodup ∧
    (((BlockQuery.mk [blkA, blkB, blkC]).blocks.map (fun b => b.id)).Nodup) :=
  ⟨(C1_gradient_uniqueness F0 catABC ⟨[blkA, blkB]⟩
      (ExtendedColorData.from_rgb F0 0 0 0) (ExtendedColorData.from_rgb F0 4 4 4)
      cfgRgb3 "a" "b").1,
   (C1_gradient_uniqueness F0 catABC ⟨[blkA, blkB]⟩
      (ExtendedColorData.from_rgb F0 0 0 0) (ExtendedColorData.from_rgb F0 4 4 4)
      cfgRgb3 "a" "b").2.1 ⟨[blkA, blkB, blkC]⟩ (by with_unfolding_all decide)⟩

theorem head?_mergeSort_optFold (l : List (BlockFacts × ℚ)) :
    (l.mergeSort (fun a b => decide (a.2 ≤ b.2))).head? = optFold none l := by
  cases l with
  | nil => simp [List.mergeSort_nil, optFold]
  | cons c cs =>
    have h := head?_mergeSort_eq_foldMin (fun p : BlockFacts × ℚ => p.2) (c :: cs)
    simpa [optFold] using h

/-- One step of the resolution loop picks the first minimal-distance unused
colored candidate. -/
theorem resolveLoop_cons (F : FloatOps) (catalog : Catalog)
    (t : ExtendedColorData) (rest : List ExtendedColorData) (used : List String) :
    BlockQuery.resolveLoop F catalog (t :: rest) used =
      match optFold none (BlockQuery.candidatesFor F catalog used t) with
      | some p => p.1 :: BlockQuery.resolveLoop F catalog rest (p.1.id :: used)
      | none => BlockQuery.resolveLoop F catalog rest used := by
  rw [BlockQuery.resolveLoop, head?_mergeSort_optFold]

theorem find_closest_eq_optFold (F : FloatOps) (catalog : Catalog)
    (t : ExtendedColorData) :
    BlockQuery.find_closest_color_block F catalog t
      = (optFold none (cands F t catalog)).map (fun p => p.1) := by
  unfold BlockQuery.find_closest_color_block
  exact closestScan_eq F t catalog none

theorem cands_eq_nil (F : FloatOps) (t : ExtendedColorData) (catalog : Catalog) :
    cands F t catalog = [] ↔ ∀ b ∈ catalog, b.color = none := by
  unfold cands
  rw [List.filterMap_eq_nil_iff]
  constructor
  · intro h b hb
    exact Option.map_eq_none'.mp (h b hb)
  · intro h b hb
    rw [h b hb]
    rfl

/-- C3: gradient generation between two colors: `steps = 0` yields an empty
working set; `steps = 1` yields exactly the nearest-match resolution of the
start color; `steps = 2` yields the resolution of the unmodified start color
followed by the resolution of the unmodified end color over the remaining
(unused) catalog — independent of the easing function and color space. -/
theorem C3_gradient_boundaries (F : FloatOps) (catalog : Catalog)
    (q : BlockQuery) (s e : ExtendedColorData) (cfg : GradientConfig) :
    (cfg.steps = 0 →
      (q.generate_gradient_between_colors F catalog s e cfg).blocks = []) ∧
    (cfg.steps = 1 →
      (q.generate_gradient_between_colors F catalog s e cfg).blocks
        = (BlockQuery.find_closest_color_block F catalog s).toList) ∧
    (cfg.steps = 2 →
      (q.generate_gradient_between_colors F catalog s e cfg).blocks
        = match BlockQuery.find_closest_color_block F catalog s with
          | none => []
          | some b1 => b1 ::
              (BlockQuery.find_closest_color_block F
                (catalog.filter (fun b => !(b.id == b1.id))) e).toList) := by
  unfold BlockQuery.generate_gradient_between_colors
    BlockQuery.generate_gradient_between_colors_static
  refine ⟨?_, ?_, ?_⟩
  · intro h
    simp [h, BlockQuery.resolveLoop]
  · intro h
    simp only [h]
    norm_num
    rw [resolveLoop_cons, candidatesFor_nil_used, find_closest_eq_optFold]
    cases hopt : optFold none (cands F s catalog) with
    | none => simp [BlockQuery.resolveLoop]
    | some p => simp [BlockQuery.resolveLoop]
  · intro h
    simp only [h]
    norm_num
    rw [resolveLoop_cons, candidatesFor_nil_used, find_closest_eq_optFold]
    cases hopt : optFold none (cands F s catalog) with
    | none =>
      show BlockQuery.resolveLoop F catalog [e] [] = []
      have hnil : cands F s catalog = [] := by
        cases hc : cands F s catalog with
        | nil => rfl
        | cons c cs => rw [hc] at hopt; simp [optFold] at hopt
      have hnil2 : cands F e catalog = [] :=
        (cands_eq_nil F e catalog).mpr ((cands_eq_nil F s catalog).mp hnil)
      rw [resolveLoop_cons, candidatesFor_nil_used, hnil2]
      simp [optFold, BlockQuery.resolveLoop]
    | some p =>
      show p.1 :: BlockQuery.resolveLoop F catalog [e] [p.1.id]
          = p.1 :: (BlockQuery.find_closest_color_block F
              (catalog.filter (fun b => !(b.id == p.1.id))) e).toList
      congr 1
      rw [resolveLoop_cons, candidatesFor_single_used, find_closest_eq_optFold]
      cases hopt2 : optFold none
          (cands F e (catalog.filter (fun b => !(b.id == p.1.id)))) with
      | none => simp [BlockQuery.resolveLoop]
      | some p2 => simp [BlockQuery.resolveLoop]

/-- Two linear RGB steps. -/
def cfgRgb2 : GradientConfig :=
  ⟨2, ColorSpace.Rgb, ColorSamplingMethod.Dominant, EasingFunction.Linear⟩

/-- Witness for C3 at steps = 2 over the concrete catalog. -/
theorem C3_witness :
    ((BlockQuery.mk []).generate_gradient_between_colors F0 catABC
        (ExtendedColorData.from_rgb F0 0 0 0) (ExtendedColorData.from_rgb F0 4 4 4)
        cfgRgb2).blocks
      = match BlockQuery.find_closest_color_block F0 catABC
            (ExtendedColorData.from_rgb F0 0 0 0) with
        | none => []
        | some b1 => b1 :: (BlockQuery.find_closest_color_block F0
            (catABC.filter (fun b => !(b.id == b1.id)))
            (ExtendedColorData.from_rgb F0 4 4 4)).toList :=
  (C3_gradient_boundaries F0 catABC ⟨[]⟩
    (ExtendedColorData.from_rgb F0 0 0 0) (ExtendedColorData.from_rgb F0 4 4 4)
    cfgRgb2).2.2 rfl

theorem scanBest_some_eq_foldMin :
    ∀ (ds : List ℚ) (i best : ℕ) (bd : ℚ),
      BlockQuery.scanBest ds i best (some bd)
        = (foldMin (fun p : ℕ × ℚ => p.2) (best, bd) (List.enumFrom i ds)).1 := by
  intro ds
  induction ds with
  | nil => intro i best bd; rfl
  | cons d rest ih =>
    intro i best bd
    rw [List.enumFrom_cons, foldMin_cons]
    by_cases hd : d < bd
    · have hstep : BlockQuery.scanBest (d :: rest) i best (some bd)
          = BlockQuery.scanBest rest (i + 1) i (some d) := by
        simp [BlockQuery.scanBest, hd]
      rw [hstep, ih, if_pos hd]
    · have hstep : BlockQuery.scanBest (d :: rest) i best (some bd)
          = BlockQuery.scanBest rest (i + 1) best (some bd) := by
        simp [BlockQuery.scanBest, hd]
      rw [hstep, ih, if_neg hd]

theorem bestIdx_cons (d : ℚ) (rest : List ℚ) :
    BlockQuery.bestIdx (d :: rest)
      = (foldMin (fun p : ℕ × ℚ => p.2) (0, d) (List.enumFrom 1 rest)).1 := by
  have h0 : BlockQuery.bestIdx (d :: rest) = BlockQuery.scanBest rest 1 0 (some d) := by
    simp [BlockQuery.bestIdx, BlockQuery.scanBest]
  rw [h0, scanBest_some_eq_foldMin]

theorem enumFrom_mem_getElem {l : List ℚ} :
    ∀ {n : ℕ} {p : ℕ × ℚ}, p ∈ List.enumFrom n l →
      n ≤ p.1 ∧ l[p.1 - n]? = some p.2 := by
  induction l with
  | nil => intro n p hp; simp at hp
  | cons x t ih =>
    intro n p hp
    rw [List.enumFrom_cons] at hp
    rcases List.mem_cons.mp hp with h | h
    · rw [h]
      exact ⟨le_refl n, by simp⟩
    · obtain ⟨h1, h2⟩ := ih h
      refine ⟨by omega, ?_⟩
      rw [show p.1 - n = (p.1 - (n + 1)) + 1 from by omega, List.getElem?_cons_succ]
      exact h2

/-- The strict scan index points at a minimal element of the list. -/
theorem bestIdx_spec (ds : List ℚ) (h : ds ≠ []) :
    ∃ dv, ds[BlockQuery.bestIdx ds]? = some dv ∧ ∀ x ∈ ds, dv ≤ x := by
  cases ds with
  | nil => exact absurd rfl h
  | cons d rest =>
    rw [bestIdx_cons]
    set m := foldMin (fun p : ℕ × ℚ => p.2) (0, d) (List.enumFrom 1 rest) with hm
    refine ⟨m.2, ?_, ?_⟩
    · rcases List.mem_cons.mp (foldMin_mem (fun p : ℕ × ℚ => p.2) (List.enumFrom 1 rest) (0, d)) with hmem | hmem
      · rw [← hm] at hmem
        rw [hmem]
        simp
      · rw [← hm] at hmem
        obtain ⟨h1, h2⟩ := enumFrom_mem_getElem hmem
        rw [show m.1 = (m.1 - 1) + 1 from by omega, List.getElem?_cons_succ]
        simpa using h2
    · intro x hx
      rcases List.mem_cons.mp hx with hx | hx
    -- x = d
      · rw [hx]
        exact foldMin_le_start (fun p : ℕ × ℚ => p.2) (List.enumFrom 1 rest) (0, d)
      · have : x ∈ List.map Prod.snd (List.enumFrom 1 rest) := by
          rw [List.enumFrom_map_snd]; exact hx
        obtain ⟨p, hp, hpx⟩ := List.mem_map.mp this
        have := foldMin_le_mem (fun q : ℕ × ℚ => q.2) (List.enumFrom 1 rest) (0, d) p hp
        rw [← hm] at this
        rw [← hpx]
        exact this

/-- Pointwise characterisation of a successful `Option`-monadic `mapM`. -/
theorem mapM_option_eq_some {α β : Type} (f : α → Option β) :
    ∀ (l : List α) (ds : List β), l.mapM f = some ds →
      ds.length = l.length ∧ ∀ (j : ℕ), (l[j]?.bind f) = ds[j]? := by
  intro l
  induction l with
  | nil =>
    intro ds h
    rw [List.mapM_nil] at h
    have : ds = [] := (Option.some.inj h).symm
    subst this
    exact ⟨rfl, fun j => by simp⟩
  | cons a t ih =>
    intro ds h
    rw [List.mapM_cons] at h
    simp only [Option.bind_eq_bind, Option.bind_eq_some, Option.pure_def,
      Option.some.injEq] at h
    obtain ⟨b, hb, bs, hbs, hcons⟩ := h
    obtain ⟨hlen, hpt⟩ := ih bs hbs
    subst hcons
    refine ⟨by simp [hlen], ?_⟩
    intro j
    cases j with
    | zero => simp [hb]
    | succ j => simpa using hpt j

theorem mapM_option_isSome {α β : Type} (f : α → Option β) :
    ∀ (l : List α), (∀ a ∈ l, (f a).isSome) → ∃ ds, l.mapM f = some ds := by
  intro l
  induction l with
  | nil => intro _; exact ⟨[], by rw [List.mapM_nil]; rfl⟩
  | cons a t ih =>
    intro h
    obtain ⟨b, hb⟩ := Option.isSome_iff_exists.mp (h a (List.mem_cons_self a t))
    obtain ⟨bs, hbs⟩ := ih (fun x hx => h x (List.mem_cons_of_mem a hx))
    refine ⟨b :: bs, ?_⟩
    rw [List.mapM_cons]
    simp only [Option.bind_eq_bind, hb, hbs, Option.some_bind, Option.pure_def]

/-- Spec-side predicate: each element of a greedy chain is, at its position,
an entry of minimal Oklab distance to the element placed just before it
among all entries at its position or later. -/
def greedyFrom (F : FloatOps) : BlockFacts → List BlockFacts → Prop
  | _, [] => True
  | last, y :: t =>
    (∀ z ∈ y :: t, ∀ cl cy cz, last.color = some cl → y.color = some cy →
        z.color = some cz →
        ExtendedColorData.distSqOklab (cy.to_extended F) (cl.to_extended F)
          ≤ ExtendedColorData.distSqOklab (cz.to_extended F) (cl.to_extended F)) ∧
    greedyFrom F y t

/-- A list is greedily ordered when its tail is a greedy chain from its
head. -/
def greedySorted (F : FloatOps) : List BlockFacts → Prop
  | [] => True
  | x :: t => greedyFrom F x t

theorem greedySorted_short (F : FloatOps) (l : List BlockFacts)
    (h : l.length ≤ 1) : greedySorted F l := by
  cases l with
  | nil => trivial
  | cons x t =>
    cases t with
    | nil => trivial
    | cons y t' => simp at h

theorem mem_of_getElem?_some {α : Type} {l : List α} {i : ℕ} {a : α}
    (h : l[i]? = some a) : a ∈ l := by
  obtain ⟨hlt, he⟩ := List.getElem?_eq_some.mp h
  rw [← he]
  exact List.getElem_mem hlt

/-- The greedy chain loop always succeeds on colored input and returns a
permutation of the remaining entries that is a greedy chain from `last`. -/
theorem chainLoop_spec (F : FloatOps) :
    ∀ (n : ℕ) (remaining : List BlockFacts) (last : BlockFacts),
      remaining.length ≤ n →
      (last.color).isSome = true → (∀ b ∈ remaining, (b.color).isSome = true) →
      ∃ tail, BlockQuery.chainLoop F last remaining = some tail ∧
        tail.Perm remaining ∧ greedyFrom F last tail := by
  intro n
  induction n with
  | zero =>
    intro remaining last hlen _ _
    have hnil : remaining = [] := List.eq_nil_of_length_eq_zero (Nat.le_zero.mp hlen)
    subst hnil
    exact ⟨[], by rw [BlockQuery.chainLoop], List.Perm.refl _, trivial⟩
  | succ n ih =>
    intro remaining last hlen hlast hall
    cases hrem : remaining with
    | nil =>
      subst hrem
      exact ⟨[], by rw [BlockQuery.chainLoop], List.Perm.refl _, trivial⟩
    | cons r0 rrest =>
      subst hrem
      obtain ⟨cl, hcl⟩ := Option.isSome_iff_exists.mp hlast
      have hfSome : ∀ b ∈ r0 :: rrest,
          (b.color.map (fun c => ExtendedColorData.distSqOklab
            (c.to_extended F) (cl.to_extended F))).isSome = true := by
        intro b hb
        obtain ⟨c, hc⟩ := Option.isSome_iff_exists.mp (hall b hb)
        rw [hc]
        rfl
      obtain ⟨ds, hds⟩ := mapM_option_isSome _ (r0 :: rrest) hfSome
      obtain ⟨hlends, hpt⟩ := mapM_option_eq_some _ (r0 :: rrest) ds hds
      have hdsne : ds ≠ [] := by
        intro hd
        rw [hd] at hlends
        simp at hlends
      obtain ⟨dv, hdv, hmin⟩ := bestIdx_spec ds hdsne
      have hidxlt : BlockQuery.bestIdx ds < ds.length := (List.getElem?_eq_some.mp hdv).1
      have hidxlt2 : BlockQuery.bestIdx ds < (r0 :: rrest).length := by
        rw [hlends] at hidxlt
        exact hidxlt
      cases hb : (r0 :: rrest)[BlockQuery.bestIdx ds]? with
      | none =>
        exfalso
        rw [List.getElem?_eq_none_iff] at hb
        omega
      | some b =>
        have hbmem : b ∈ r0 :: rrest := mem_of_getElem?_some hb
        have hbcolor := hall b hbmem
        have hallerase : ∀ x ∈ (r0 :: rrest).eraseIdx (BlockQuery.bestIdx ds),
            (x.color).isSome = true :=
          fun x hx => hall x (List.Sublist.mem hx (List.eraseIdx_sublist _ _))
        have hlenerase : ((r0 :: rrest).eraseIdx (BlockQuery.bestIdx ds)).length ≤ n := by
          rw [List.length_eraseIdx_of_lt hidxlt2]
          simp only [List.length_cons] at hlen ⊢
          omega
        obtain ⟨tail, htail, hperm, hgreedy⟩ :=
          ih ((r0 :: rrest).eraseIdx (BlockQuery.bestIdx ds)) b hlenerase hbcolor hallerase
        refine ⟨b :: tail, ?_, ?_, ?_⟩
        · rw [BlockQuery.chainLoop]
          split
          next heq => exact absurd (hcl ▸ heq) (by simp)
          next cc heq =>
            obtain rfl : cc = cl := by
              rw [hcl] at heq
              exact (Option.some.inj heq).symm
            split
            next heq2 => rw [hds] at heq2; exact absurd heq2 (by simp)
            next ds2 heq2 =>
              obtain rfl : ds2 = ds := by
                rw [hds] at heq2
                exact (Option.some.inj heq2).symm
              dsimp only
              split
              next heq3 => rw [hb] at heq3; exact absurd heq3 (by simp)
              next b2 heq3 =>
                obtain rfl : b2 = b := by
                  rw [hb] at heq3
                  exact (Option.some.inj heq3).symm
                rw [htail]
                rfl
        · have hbe : (r0 :: rrest)[BlockQuery.bestIdx ds] = b :=
            (List.getElem?_eq_some.mp hb).2
          have h1 : (b :: tail).Perm
              (b :: (r0 :: rrest).eraseIdx (BlockQuery.bestIdx ds)) := hperm.cons b
          have h2 : (b :: (r0 :: rrest).eraseIdx (BlockQuery.bestIdx ds)).Perm
              (r0 :: rrest) := by
            rw [List.eraseIdx_eq_take_drop_succ]
            refine List.Perm.trans List.perm_middle.symm ?_
            rw [← hbe, List.getElem_cons_drop _ _ hidxlt2, List.take_append_drop]
          exact h1.trans h2
        · simp only [greedyFrom]
          refine ⟨?_, hgreedy⟩
          intro z hz cl2 cy cz hcl2 hcy hcz
          have hcleq : cl2 = cl := by
            rw [hcl] at hcl2
            exact (Option.some.inj hcl2).symm
          rw [hcleq]
          have hfb : b.color.map (fun c => ExtendedColorData.distSqOklab
              (c.to_extended F) (cl.to_extended F)) = some dv := by
            have hx := hpt (BlockQuery.bestIdx ds)
            rw [hb, hdv] at hx
            simpa using hx
          rw [hcy] at hfb
          have hdvval : ExtendedColorData.distSqOklab
              (cy.to_extended F) (cl.to_extended F) = dv := by
            simpa using hfb
          rcases List.mem_cons.mp hz with hzb | hzt
          · subst hzb
            have hzy : cz = cy := by
              rw [hcy] at hcz
              exact (Option.some.inj hcz).symm
            rw [hzy]
          · have hzer : z ∈ (r0 :: rrest).eraseIdx (BlockQuery.bestIdx ds) :=
              (hperm.mem_iff).mp hzt
            have hzrem : z ∈ r0 :: rrest :=
              List.Sublist.mem hzer (List.eraseIdx_sublist _ _)
            obtain ⟨j, hj⟩ := List.getElem?_of_mem hzrem
            have hfz : ds[j]? = some (ExtendedColorData.distSqOklab
                (cz.to_extended F) (cl.to_extended F)) := by
              have hx := hpt j
              rw [hj] at hx
              simp only [Option.some_bind] at hx
              rw [hcz] at hx
              simpa using hx.symm
            have hdzmem := mem_of_getElem?_some hfz
            rw [hdvval]
            exact hmin _ hdzmem

/-- C4 (amended): on a working set with at least two entries,
`sort_by_color_gradient` succeeds and returns exactly the colored members,
ordered greedily (first colored entry first, then repeatedly the remaining
entry of minimal Oklab distance to the one just placed); a working set with
at most one entry is returned unchanged, even when its sole member is
uncolored. -/
theorem C4_sort_by_color_gradient_greedy (F : FloatOps) (q : BlockQuery) :
    (q.blocks.length ≤ 1 → BlockQuery.sort_by_color_gradient F q = some q) ∧
    (2 ≤ q.blocks.length → ∃ r, BlockQuery.sort_by_color_gradient F q = some r ∧
      r.blocks.Perm (q.blocks.filter (fun b => b.color.isSome)) ∧
      r.blocks.head? = (q.blocks.filter (fun b => b.color.isSome)).head? ∧
      greedySorted F r.blocks) := by
  constructor
  · intro h
    unfold BlockQuery.sort_by_color_gradient
    rw [if_pos h]
  · intro h
    unfold BlockQuery.sort_by_color_gradient
    rw [if_neg (by omega)]
    by_cases hc : (q.blocks.filter (fun b => b.color.isSome)).length ≤ 1
    · rw [if_pos hc]
      exact ⟨⟨q.blocks.filter (fun b => b.color.isSome)⟩, rfl, List.Perm.refl _, rfl,
        greedySorted_short F _ hc⟩
    · rw [if_neg hc]
      cases hcol : q.blocks.filter (fun b => b.color.isSome) with
      | nil => rw [hcol] at hc; simp at hc
      | cons c0 rest =>
        have hc0mem : c0 ∈ q.blocks.filter (fun b => b.color.isSome) := by
          rw [hcol]; exact List.mem_cons_self c0 rest
        have hc0 : (c0.color).isSome = true := (List.mem_filter.mp hc0mem).2
        have hrest : ∀ b ∈ rest, (b.color).isSome = true := by
          intro b hb
          have : b ∈ q.blocks.filter (fun x => x.color.isSome) := by
            rw [hcol]; exact List.mem_cons_of_mem c0 hb
          exact (List.mem_filter.mp this).2
        obtain ⟨tail, htail, hperm, hgreedy⟩ :=
          chainLoop_spec F rest.length rest c0 (le_refl _) hc0 hrest
        refine ⟨⟨c0 :: tail⟩, ?_, ?_, ?_, ?_⟩
        · show Option.map (fun tail => BlockQuery.mk (c0 :: tail))
              (BlockQuery.chainLoop F c0 rest) = some ⟨c0 :: tail⟩
          rw [htail]
          rfl
        · exact hperm.cons c0
        · rfl
        · exact hgreedy

/-- An uncolored block. -/
def blkU : BlockFacts := ⟨"u", [], [], false, none⟩

/-- C4 counterexample: a singleton working set whose only member is
uncolored is returned unchanged, so the uncolored member is not dropped. -/
theorem C4_counterexample :
    BlockQuery.sort_by_color_gradient F0 ⟨[blkU]⟩ = some ⟨[blkU]⟩ ∧
    ([blkU] : List BlockFacts).filter (fun b => b.color.isSome) = [] ∧
    BlockQuery.sort_by_color_gradient F0 ⟨[blkU]⟩
      ≠ some ⟨([blkU] : List BlockFacts).filter (fun b => b.color.isSome)⟩ := by
  refine ⟨by with_unfolding_all decide, by decide, by with_unfolding_all decide⟩

/-- Witness for C4 at two concrete working sets. -/
theorem C4_witness :
    ((BlockQuery.mk [blkU]).blocks.length ≤ 1 ∧
      BlockQuery.sort_by_color_gradient F0 ⟨[blkU]⟩ = some ⟨[blkU]⟩) ∧
    (2 ≤ (BlockQuery.mk [blkB, blkA]).blocks.length ∧
      ∃ r, BlockQuery.sort_by_color_gradient F0 ⟨[blkB, blkA]⟩ = some r ∧
        r.blocks.Perm ((BlockQuery.mk [blkB, blkA]).blocks.filter
          (fun b => b.color.isSome)) ∧
        r.blocks.head? = ((BlockQuery.mk [blkB, blkA]).blocks.filter
          (fun b => b.color.isSome)).head? ∧
        greedySorted F0 r.blocks) :=
  ⟨⟨by decide, (C4_sort_by_color_gradient_greedy F0 ⟨[blkU]⟩).1 (by decide)⟩,
   ⟨by decide, (C4_sort_by_color_gradient_greedy F0 ⟨[blkB, blkA]⟩).2 (by decide)⟩⟩

theorem foldl_id {α β : Type} (f : β → α → β) (l : List α)
    (h : ∀ acc, ∀ x ∈ l, f acc x = acc) : ∀ acc, l.foldl f acc = acc := by
  induction l with
  | nil => intro acc; rfl
  | cons x t ih =>
    intro acc
    rw [List.foldl_cons, h acc x (List.mem_cons_self x t)]
    exact ih (fun acc2 y hy => h acc2 y (List.mem_cons_of_mem x hy)) acc

/-- A themed palette whose filter rejects every catalog entry is absent. -/
theorem themed_palette_all_blocked (F : FloatOps) (catalog : Catalog)
    (name description : String) (block_ids : List String) (theme : PaletteTheme)
    (filter : BlockFilter)
    (hfilter : ∀ b ∈ catalog, filter.allows_block b = false) :
    BlockPaletteGenerator.create_themed_palette_filtered F catalog name description
      block_ids theme filter = none := by
  unfold BlockPaletteGenerator.create_themed_palette_filtered
  rw [foldl_id _ _ ?hstep []]
  case hstep =>
    intro acc x _
    cases hbg : blocksGet catalog x.2 with
    | none => simp [hbg]
    | some block =>
      have hbmem : block ∈ catalog :=
        List.mem_of_find?_eq_some (by simpa [blocksGet] using hbg)
      simp [hbg, hfilter block hbmem]
  rfl

/-- C8: unknown theme / style strings yield no palette (for the filtered and
unfiltered natural and architectural generators alike), and a filter that
rejects every catalog entry yields no palette rather than an error. -/
theorem C8_unknown_theme_or_empty_filter (F : FloatOps) (catalog : Catalog)
    (theme style : String) (filter : BlockFilter) :
    (lowerStr theme ∉ (["forest", "woods", "desert", "sand", "ocean", "water",
        "mountain", "stone", "nether", "end"] : List String) →
      BlockPaletteGenerator.generate_natural_palette_filtered F catalog theme filter
          = none ∧
      BlockPaletteGenerator.generate_natural_palette F catalog theme = none) ∧
    (lowerStr style ∉ (["medieval", "modern", "rustic", "industrial"] : List String) →
      BlockPaletteGenerator.generate_architectural_palette_filtered F catalog style
          filter = none ∧
      BlockPaletteGenerator.generate_architectural_palette F catalog style = none) ∧
    ((∀ b ∈ catalog, filter.allows_block b = false) →
      BlockPaletteGenerator.generate_natural_palette_filtered F catalog theme filter
          = none ∧
      BlockPaletteGenerator.generate_architectural_palette_filtered F catalog style
          filter = none) := by
  refine ⟨?_, ?_, ?_⟩
  · intro h
    simp only [List.mem_cons, List.not_mem_nil, or_false, not_or] at h
    obtain ⟨h1, h2, h3, h4, h5, h6, h7, h8, h9, h10⟩ := h
    constructor
    · unfold BlockPaletteGenerator.generate_natural_palette_filtered
      simp [h1, h2, h3, h4, h5, h6, h7, h8, h9, h10]
    · unfold BlockPaletteGenerator.generate_natural_palette
        BlockPaletteGenerator.generate_natural_palette_filtered
      simp [h1, h2, h3, h4, h5, h6, h7, h8, h9, h10]
  · intro h
    simp only [List.mem_cons, List.not_mem_nil, or_false, not_or] at h
    obtain ⟨h1, h2, h3, h4⟩ := h
    constructor
    · unfold BlockPaletteGenerator.generate_architectural_palette_filtered
      simp [h1, h2, h3, h4]
    · unfold BlockPaletteGenerator.generate_architectural_palette
        BlockPaletteGenerator.generate_architectural_palette_filtered
      simp [h1, h2, h3, h4]
  · intro hfilter
    constructor
    · unfold BlockPaletteGenerator.generate_natural_palette_filtered
      dsimp only
      split_ifs <;> first
        | rfl
        | exact themed_palette_all_blocked F catalog _ _ _ _ filter hfilter
    · unfold BlockPaletteGenerator.generate_architectural_palette_filtered
      dsimp only
      split_ifs <;> first
        | rfl
        | exact themed_palette_all_blocked F catalog _ _ _ _ filter hfilter

/-- A filter whose include patterns match nothing in the concrete catalog. -/
def blockAllFilter : BlockFilter :=
  ⟨false, false, false, false, false, false, false, [], ["zzz"]⟩

/-- Witness for C8 at an unknown theme, an unknown style, and an
all-rejecting filter over the concrete catalog. -/
theorem C8_witness :
    (BlockPaletteGenerator.generate_natural_palette_filtered F0 catABC "space"
        blockAllFilter = none ∧
      BlockPaletteGenerator.generate_natural_palette F0 catABC "space" = none) ∧
    (BlockPaletteGenerator.generate_architectural_palette_filtered F0 catABC "space"
        blockAllFilter = none ∧
      BlockPaletteGenerator.generate_architectural_palette F0 catABC "space" = none) ∧
    (BlockPaletteGenerator.generate_natural_palette_filtered F0 catABC "space"
        blockAllFilter = none ∧
      BlockPaletteGenerator.generate_architectural_palette_filtered F0 catABC "space"
        blockAllFilter = none) :=
  ⟨(C8_unknown_theme_or_empty_filter F0 catABC "space" "space" blockAllFilter).1
      (by decide),
   (C8_unknown_theme_or_empty_filter F0 catABC "space" "space" blockAllFilter).2.1
      (by decide),
   (C8_unknown_theme_or_empty_filter F0 catABC "space" "space" blockAllFilter).2.2
      (by decide)⟩

/-- Over a catalog with no colored entries the resolution loop finds no
candidate at any step. -/
theorem resolveLoop_colorless (F : FloatOps) (catalog : Catalog)
    (hcat : ∀ b ∈ catalog, b.color = none) :
    ∀ (targets : List ExtendedColorData) (used : List String),
      BlockQuery.resolveLoop F catalog targets used = [] := by
  intro targets
  induction targets with
  | nil => intro used; rfl
  | cons t rest ih =>
    intro used
    rw [resolveLoop_cons]
    have hcand : BlockQuery.candidatesFor F catalog used t = [] := by
      unfold BlockQuery.candidatesFor
      rw [List.filterMap_eq_nil_iff]
      intro b hb
      rw [hcat b hb]
    rw [hcand]
    simp [optFold, ih]

theorem static_gradient_colorless (F : FloatOps) (catalog : Catalog)
    (hcat : ∀ b ∈ catalog, b.color = none) (s e : ExtendedColorData)
    (cfg : GradientConfig) :
    BlockQuery.generate_gradient_between_colors_static F catalog s e cfg = ⟨[]⟩ := by
  unfold BlockQuery.generate_gradient_between_colors_static
  exact congrArg BlockQuery.mk (resolveLoop_colorless F catalog hcat _ [])

/-- `generate_gradient` never fails: the endpoint `unwrap`s are guarded. -/
theorem generate_gradient_isSome (F : FloatOps) (catalog : Catalog)
    (q : BlockQuery) (cfg : GradientConfig) :
    (BlockQuery.generate_gradient F catalog q cfg).isSome = true := by
  unfold BlockQuery.generate_gradient
  dsimp only
  by_cases hlen : (q.blocks.filter (fun b => b.color.isSome)).length < 2
  · rw [if_pos hlen]; rfl
  · rw [if_neg hlen]
    cases hcol : q.blocks.filter (fun b => b.color.isSome) with
    | nil => rw [hcol] at hlen; simp at hlen
    | cons c0 rest =>
      have hc0 : (c0.color).isSome = true := by
        have hm : c0 ∈ q.blocks.filter (fun b => b.color.isSome) := by
          rw [hcol]; exact List.mem_cons_self _ _
        exact (List.mem_filter.mp hm).2
      obtain ⟨sc, hsc⟩ := Option.isSome_iff_exists.mp hc0
      obtain ⟨gl, hgl⟩ := Option.isSome_iff_exists.mp
        (List.getLast?_isSome.mpr (List.cons_ne_nil c0 rest))
      have hglc : (gl.color).isSome = true := by
        have hm : gl ∈ q.blocks.filter (fun b => b.color.isSome) := by
          rw [hcol]; exact List.mem_of_getLast?_eq_some hgl
        exact (List.mem_filter.mp hm).2
      obtain ⟨ec, hec⟩ := Option.isSome_iff_exists.mp hglc
      simp [Option.bind_eq_bind, List.head?_cons, hsc, hgl, hec]

/-- `generate_multi_gradient` never fails: every anchor passed to the
color `unwrap` has already been filtered for `color.is_some()`. -/
theorem generate_multi_gradient_isSome (F : FloatOps) (catalog : Catalog)
    (q : BlockQuery) (cfg : GradientConfig) :
    (BlockQuery.generate_multi_gradient F catalog q cfg).isSome = true := by
  unfold BlockQuery.generate_multi_gradient
  dsimp only
  by_cases h1 : (q.blocks.filter (fun b => b.color.isSome)).isEmpty = true
  · rw [if_pos h1]; rfl
  · rw [if_neg h1]
    by_cases h2 : (q.blocks.filter (fun b => b.color.isSome)).length = 1
    · rw [if_pos h2]
      cases hcol : q.blocks.filter (fun b => b.color.isSome) with
      | nil => rw [hcol] at h1; simp at h1
      | cons c cs => rfl
    · rw [if_neg h2]
      have hall : ∀ b ∈ q.blocks.filter (fun b => b.color.isSome),
          (b.color).isSome = true := fun b hb => (List.mem_filter.mp hb).2
      obtain ⟨cds, hcds⟩ := mapM_option_isSome (fun b : BlockFacts => b.color) _ hall
      simp only [Option.bind_eq_bind]
      rw [hcds]
      rfl

/-- `sort_by_color_gradient` never fails: the greedy loop only consumes
colored entries and only indexes within bounds. -/
theorem sort_by_color_gradient_isSome (F : FloatOps) (q : BlockQuery) :
    (BlockQuery.sort_by_color_gradient F q).isSome = true := by
  unfold BlockQuery.sort_by_color_gradient
  dsimp only
  by_cases h1 : q.blocks.length ≤ 1
  · rw [if_pos h1]; rfl
  · rw [if_neg h1]
    by_cases h2 : (q.blocks.filter (fun b => b.color.isSome)).length ≤ 1
    · rw [if_pos h2]; rfl
    · rw [if_neg h2]
      cases hcol : q.blocks.filter (fun b => b.color.isSome) with
      | nil => rw [hcol] at h2; simp at h2
      | cons b0 rest =>
        have hmem : ∀ b ∈ q.blocks.filter (fun b => b.color.isSome),
            (b.color).isSome = true := fun b hb => (List.mem_filter.mp hb).2
        have hb0 : (b0.color).isSome = true :=
          hmem b0 (by rw [hcol]; exact List.mem_cons_self _ _)
        have hrest : ∀ b ∈ rest, (b.color).isSome = true :=
          fun b hb => hmem b (by rw [hcol]; exact List.mem_cons_of_mem _ hb)
        obtain ⟨tail, htail, _, _⟩ :=
          chainLoop_spec F rest.length rest b0 le_rfl hb0 hrest
        show (Option.map (fun tail => BlockQuery.mk (b0 :: tail))
            (BlockQuery.chainLoop F b0 rest)).isSome = true
        rw [htail]
        rfl

/-- C9 (amended): every chainable and terminal `BlockQuery` operation is
total on the empty working set, yielding the empty working set or the empty
terminal value, and the three fallible operations (whose `unwrap`s and
`remove` are modelled in `Option`) succeed on every working set — but the
catalog-backed gradient methods ignore the working set, so a chain through
them need not stay empty (see the separate counterexample); on a catalog
with no colored entries they do return the empty working set. -/
theorem C9_empty_working_set_total (F : FloatOps) (catalog catalog2 : Catalog)
    (q : BlockQuery) (c s e : ExtendedColorData) (tol : ℚ) (cfg : GradientConfig)
    (property value pattern sid eid : String) (families : List String) (n : ℕ)
    (hcat : ∀ b ∈ catalog2, b.color = none) :
    ((BlockQuery.mk []).only_solid = ⟨[]⟩) ∧
    ((BlockQuery.mk []).exclude_tile_entities = ⟨[]⟩) ∧
    ((BlockQuery.mk []).exclude_falling = ⟨[]⟩) ∧
    ((BlockQuery.mk []).exclude_transparent = ⟨[]⟩) ∧
    ((BlockQuery.mk []).exclude_light_sources = ⟨[]⟩) ∧
    ((BlockQuery.mk []).exclude_needs_support = ⟨[]⟩) ∧
    ((BlockQuery.mk []).survival_only = ⟨[]⟩) ∧
    ((BlockQuery.mk []).with_color = ⟨[]⟩) ∧
    ((BlockQuery.mk []).with_property property = ⟨[]⟩) ∧
    ((BlockQuery.mk []).with_property_value property value = ⟨[]⟩) ∧
    ((BlockQuery.mk []).matching pattern = ⟨[]⟩) ∧
    ((BlockQuery.mk []).from_families families = ⟨[]⟩) ∧
    ((BlockQuery.mk []).exclude_families families = ⟨[]⟩) ∧
    ((BlockQuery.mk []).similar_to_color F c tol = ⟨[]⟩) ∧
    ((BlockQuery.mk []).limit n = ⟨[]⟩) ∧
    ((BlockQuery.mk []).sort_by_name = ⟨[]⟩) ∧
    ((BlockQuery.mk []).sort_by_color_similarity F c = ⟨[]⟩) ∧
    ((BlockQuery.mk []).collect = []) ∧
    ((BlockQuery.mk []).count = 0) ∧
    ((BlockQuery.mk []).len = 0) ∧
    ((BlockQuery.mk []).is_empty = true) ∧
    ((BlockQuery.mk []).first = none) ∧
    ((BlockQuery.mk []).any = false) ∧
    (BlockQuery.generate_gradient F catalog ⟨[]⟩ cfg = some ⟨[]⟩) ∧
    (BlockQuery.generate_multi_gradient F catalog ⟨[]⟩ cfg = some ⟨[]⟩) ∧
    (BlockQuery.sort_by_color_gradient F ⟨[]⟩ = some ⟨[]⟩) ∧
    ((BlockQuery.mk []).generate_gradient_between_colors F catalog2 s e cfg
        = ⟨[]⟩) ∧
    (BlockQuery.generate_gradient_between_blocks F catalog2 sid eid cfg = ⟨[]⟩) ∧
    ((BlockQuery.generate_gradient F catalog q cfg).isSome = true) ∧
    ((BlockQuery.generate_multi_gradient F catalog q cfg).isSome = true) ∧
    ((BlockQuery.sort_by_color_gradient F q).isSome = true) := by
  refine ⟨rfl, rfl, rfl, rfl, rfl, rfl, rfl, rfl, rfl, rfl, rfl, rfl, rfl, rfl,
    ?_, ?_, ?_, rfl, rfl, rfl, rfl, rfl, rfl, ?_, rfl, rfl, ?_, ?_, ?_, ?_, ?_⟩
  · simp [BlockQuery.limit]
  · simp [BlockQuery.sort_by_name, List.mergeSort_nil]
  · simp [BlockQuery.sort_by_color_similarity, List.mergeSort_nil]
  · rfl
  · exact static_gradient_colorless F catalog2 hcat s e cfg
  · unfold BlockQuery.generate_gradient_between_blocks
    cases hs : blocksGet catalog2 sid with
    | none => rfl
    | some sb =>
      cases he : blocksGet catalog2 eid with
      | none => rfl
      | some eb =>
        have hsc : sb.color = none :=
          hcat sb (List.mem_of_find?_eq_some (by simpa [blocksGet] using hs))
        show (match sb.color, eb.color with
          | some sc, some ec =>
            BlockQuery.generate_gradient_between_colors_static F catalog2
              (ColorData.to_extended F sc) (ColorData.to_extended F ec) cfg
          | _, _ => (⟨[]⟩ : BlockQuery)) = ⟨[]⟩
        rw [hsc]
  · exact generate_gradient_isSome F catalog q cfg
  · exact generate_multi_gradient_isSome F catalog q cfg
  · exact sort_by_color_gradient_isSome F q

/-- One step in RGB space. -/
def cfgRgb1 : GradientConfig :=
  ⟨1, ColorSpace.Rgb, ColorSamplingMethod.Dominant, EasingFunction.Linear⟩

/-- C9 counterexample: `generate_gradient_between_colors` is a chainable
operation that ignores its working set and resolves over the catalog, so a
chain on an empty working set does not stay empty at every stage. -/
theorem C9_counterexample :
    (BlockQuery.mk []).generate_gradient_between_colors F0 catABC
        (ExtendedColorData.from_rgb F0 0 0 0) (ExtendedColorData.from_rgb F0 0 0 0)
        cfgRgb1 = ⟨[blkA]⟩ ∧
    (BlockQuery.mk [blkA]) ≠ ⟨[]⟩ := by
  constructor
  · with_unfolding_all decide
  · with_unfolding_all decide

/-- Witness for C9 over concrete catalogs (including a colorless one) and a
concrete nonempty working set. -/
theorem C9_witness :
    (∀ b ∈ ([blkU] : Catalog), b.color = none) ∧
    (((BlockQuery.mk []).only_solid = ⟨[]⟩) ∧
    ((BlockQuery.mk []).exclude_tile_entities = ⟨[]⟩) ∧
    ((BlockQuery.mk []).exclude_falling = ⟨[]⟩) ∧
    ((BlockQuery.mk []).exclude_transparent = ⟨[]⟩) ∧
    ((BlockQuery.mk []).exclude_light_sources = ⟨[]⟩) ∧
    ((BlockQuery.mk []).exclude_needs_support = ⟨[]⟩) ∧
    ((BlockQuery.mk []).survival_only = ⟨[]⟩) ∧
    ((BlockQuery.mk []).with_color = ⟨[]⟩) ∧
    ((BlockQuery.mk []).with_property "p" = ⟨[]⟩) ∧
    ((BlockQuery.mk []).with_property_value "p" "v" = ⟨[]⟩) ∧
    ((BlockQuery.mk []).matching "pat" = ⟨[]⟩) ∧
    ((BlockQuery.mk []).from_families [] = ⟨[]⟩) ∧
    ((BlockQuery.mk []).exclude_families [] = ⟨[]⟩) ∧
    ((BlockQuery.mk []).similar_to_color F0 (ExtendedColorData.from_rgb F0 0 0 0) 1
        = ⟨[]⟩) ∧
    ((BlockQuery.mk []).limit 0 = ⟨[]⟩) ∧
    ((BlockQuery.mk []).sort_by_name = ⟨[]⟩) ∧
    ((BlockQuery.mk []).sort_by_color_similarity F0
        (ExtendedColorData.from_rgb F0 0 0 0) = ⟨[]⟩) ∧
    ((BlockQuery.mk []).collect = []) ∧
    ((BlockQuery.mk []).count = 0) ∧
    ((BlockQuery.mk []).len = 0) ∧
    ((BlockQuery.mk []).is_empty = true) ∧
    ((BlockQuery.mk []).first = none) ∧
    ((BlockQuery.mk []).any = false) ∧
    (BlockQuery.generate_gradient F0 catABC ⟨[]⟩ cfgRgb2 = some ⟨[]⟩) ∧
    (BlockQuery.generate_multi_gradient F0 catABC ⟨[]⟩ cfgRgb2 = some ⟨[]⟩) ∧
    (BlockQuery.sort_by_color_gradient F0 ⟨[]⟩ = some ⟨[]⟩) ∧
    ((BlockQuery.mk []).generate_gradient_between_colors F0 [blkU]
        (ExtendedColorData.from_rgb F0 0 0 0) (ExtendedColorData.from_rgb F0 0 0 0)
        cfgRgb2 = ⟨[]⟩) ∧
    (BlockQuery.generate_gradient_between_blocks F0 [blkU] "a" "b" cfgRgb2
        = ⟨[]⟩) ∧
    ((BlockQuery.generate_gradient F0 catABC ⟨[blkA]⟩ cfgRgb2).isSome = true) ∧
    ((BlockQuery.generate_multi_gradient F0 catABC ⟨[blkA]⟩ cfgRgb2).isSome
        = true) ∧
    ((BlockQuery.sort_by_color_gradient F0 ⟨[blkA]⟩).isSome = true)) :=
  ⟨by decide,
   C9_empty_working_set_total F0 catABC [blkU] ⟨[blkA]⟩
     (ExtendedColorData.from_rgb F0 0 0 0) (ExtendedColorData.from_rgb F0 0 0 0)
     (ExtendedColorData.from_rgb F0 0 0 0) 1 cfgRgb2 "p" "v" "pat" "a" "b" [] 0
     (by decide)⟩

/-- A colored catalog block whose identifier matches the pattern "stone". -/
def stoneBlock : BlockFacts :=
  ⟨"minecraft:stone", [], [], false, some ⟨⟨0, 0, 0⟩, ⟨0, 0, 0⟩⟩⟩

/-- A one-entry catalog holding only `stoneBlock`. -/
def catStone : Catalog := [stoneBlock]

/-- A filter excluding every identifier containing "stone". -/
def stoneFilter : BlockFilter :=
  ⟨false, false, false, false, false, false, false, ["stone"], []⟩

/-- C2 (code-bug evidence): `generate_block_gradient_filtered` ignores its
`_filter` parameter, so with a filter that rejects `stoneBlock` it still
returns a palette whose only member is `stoneBlock` — a palette member on
which `allows_block` is `false`. -/
theorem C2_gradient_filter_ignored :
    stoneFilter.allows_block stoneBlock = false ∧
    (BlockPaletteGenerator.generate_block_gradient_filtered F0 catStone stoneBlock
        stoneBlock 1 stoneFilter).map
      (fun pal => pal.blocks.map (fun r => stoneFilter.allows_block r.block))
      = some [false] := by
  constructor
  · with_unfolding_all decide
  · with_unfolding_all decide
